import Mathlib

/-!
Shallow embedding of the youtube-transcript-generator service
(`src/index.js`, `src/fabric-youtube.js`, `src/youtube.js`) in Lean 4.

JavaScript strings are modelled as Lean `String` / `List Char`; JS numbers
as `ℚ` (floats never overflow in the ranges involved, and every arithmetic
operation the code performs on them — division by 1000, addition, doubling —
is exact on the values at hand); `undefined`-able fields as `Option`;
thrown exceptions as `Except JsErr`.  Property access on `undefined`
(which throws a `TypeError` in JS) is modelled by `jsAccess`; JS optional
chaining `?.` is `Option.bind`.
-/

namespace YT

/-- A thrown JS error: its `message` and, for axios HTTP errors, the
`err.response?.status` field. -/
structure JsErr where
  message : String
  status : Option Nat
deriving DecidableEq, Repr

/-- Property access `x.f` on a possibly-`undefined` value: accessing a field
of `undefined` throws a `TypeError`. -/
def jsAccess {α : Type} (o : Option α) : Except JsErr α :=
  match o with
  | some a => .ok a
  | none => .error ⟨"TypeError", none⟩

/-- Truthiness of an optional JS string (`undefined` and `''` are falsy). -/
def truthyOpt (o : Option String) : Bool :=
  match o with
  | some s => s ≠ ""
  | none => false

/-- JS `a || b` for optional strings: `b` when `a` is `undefined` or `''`. -/
def jsOrStr (a b : Option String) : Option String :=
  match a with
  | some s => if s = "" then b else some s
  | none => b

/-- JS `a || d` for an optional numeric option field (`0` is falsy). -/
def jsOrNat (o : Option Nat) (d : Nat) : Nat :=
  match o with
  | none => d
  | some n => if n = 0 then d else n

/-! ### Character-level string primitives (JS semantics) -/

/-- ASCII whitespace, modelling both JS `\s` and `String.prototype.trim`
on the character ranges that occur in transcripts. -/
def isWs (c : Char) : Bool :=
  c == ' ' || c == '\t' || c == '\n' || c == '\r' || c == '\x0B' || c == '\x0C'

/-- `String.prototype.trim` on a char list. -/
def trimChars (l : List Char) : List Char :=
  ((l.dropWhile isWs).reverse.dropWhile isWs).reverse

/-- `String.prototype.trim`. -/
def jsTrim (s : String) : String :=
  ⟨trimChars s.data⟩

/-- ASCII lower-casing, modelling `String.prototype.toLowerCase` (the
non-ASCII letters it would also map are discarded by every caller's
subsequent `[^a-z0-9...]` replacement, so the ASCII restriction is
observationally faithful there). -/
def toLowerAscii (c : Char) : Char :=
  if 'A' ≤ c ∧ c ≤ 'Z' then Char.ofNat (c.toNat + 32) else c

/-- Substring containment (JS `String.prototype.includes`). -/
def containsSub (pat : List Char) : List Char → Bool
  | [] => pat.isEmpty
  | x :: xs => pat.isPrefixOf (x :: xs) || containsSub pat xs

/-- Case-insensitive containment of an (already lower-case) pattern,
modelling `/pat/i.test(s)`. -/
def containsCI (pat : String) (s : String) : Bool :=
  containsSub pat.data (s.data.map toLowerAscii)

/-- JS `s.startsWith(pat)`. -/
def jsStartsWith (s pat : String) : Bool :=
  pat.data.isPrefixOf s.data

/-- `String.prototype.replace` with a plain-string pattern: replaces the
first occurrence only. -/
def replaceFirstL (pat rep : List Char) : List Char → List Char
  | [] => []
  | x :: xs =>
    if pat.isPrefixOf (x :: xs) then rep ++ (x :: xs).drop pat.length
    else x :: replaceFirstL pat rep xs

/-- JS `s.split(sep)` for a char separator: boundary occurrences produce
empty fields, exactly as in JS. -/
def splitChar (c : Char) : List Char → List (List Char)
  | [] => [[]]
  | x :: xs =>
    match splitChar c xs with
    | [] => [[]]
    | h :: t => if x = c then [] :: h :: t else (x :: h) :: t

/-- JS `s.split(sep)` for a multi-character separator (fuel-driven so that
the kernel can evaluate it; the fuel is the string length, which always
suffices because each step consumes at least one character). -/
def splitOnSubFuel (sep : List Char) : Nat → List Char → List (List Char)
  | 0, l => [l]
  | _, [] => [[]]
  | fuel + 1, x :: xs =>
    if sep ≠ [] ∧ sep.isPrefixOf (x :: xs) then
      [] :: splitOnSubFuel sep fuel ((x :: xs).drop sep.length)
    else
      match splitOnSubFuel sep fuel xs with
      | [] => [[x]]
      | h :: t => (x :: h) :: t

/-- JS `s.split(sep)` for a multi-character separator. -/
def splitOnSubL (sep l : List Char) : List (List Char) :=
  splitOnSubFuel sep l.length l

/-- `List.intercalate [c]`, named for readability in the YAML composer. -/
def intercalateChar (c : Char) (parts : List (List Char)) : List Char :=
  List.intercalate [c] parts

/-- JS `array.join(' ')` over strings. -/
def joinSpace (l : List String) : String :=
  match l with
  | [] => ""
  | h :: t => t.foldl (fun acc s => acc ++ " " ++ s) h

/-- JS `array.join('\n')` over strings. -/
def joinNl (l : List String) : String :=
  match l with
  | [] => ""
  | h :: t => t.foldl (fun acc s => acc ++ "\n" ++ s) h

/-- `description.replace(/\r\n/g, '\n')`: left-to-right, non-overlapping
replacement of each CRLF pair by a single LF. -/
def replaceCrlfL : List Char → List Char
  | '\r' :: '\n' :: rest => '\n' :: replaceCrlfL rest
  | x :: rest => x :: replaceCrlfL rest
  | [] => []

/-- `txt.replace(/&amp;/g, '&')`. -/
def replaceAmp : List Char → List Char
  | '&' :: 'a' :: 'm' :: 'p' :: ';' :: rest => '&' :: replaceAmp rest
  | x :: rest => x :: replaceAmp rest
  | [] => []

/-- The `he.decode` entity decoder, modelled on the common named entities
(the only ones that occur in YouTube caption payloads). -/
def heDecode : List Char → List Char
  | '&' :: 'a' :: 'm' :: 'p' :: ';' :: rest => '&' :: heDecode rest
  | '&' :: 'l' :: 't' :: ';' :: rest => '<' :: heDecode rest
  | '&' :: 'g' :: 't' :: ';' :: rest => '>' :: heDecode rest
  | x :: rest => x :: heDecode rest
  | [] => []

end YT

namespace YT

/-! ### Caption data (`src/youtube.js`, `src/fabric-youtube.js`) -/

/-- One caption line as produced by the library adapter and the JSON3
parser: numeric start/duration in seconds plus the text. -/
structure NumLine where
  start : ℚ
  dur : ℚ
  text : String
deriving DecidableEq, Repr

/-- One caption line as produced by `parseTranscriptXml`: the source
keeps the regex captures, so `start` and `dur` are *strings*. -/
structure XmlLine where
  start : String
  dur : String
  text : String
deriving DecidableEq, Repr

/-- A segment of a JSON3 caption event (`seg.utf8` may be absent). -/
structure Json3Seg where
  utf8 : Option String
deriving DecidableEq, Repr

/-- A JSON3 caption event; `segs` is `Option` because the source filters
on `Array.isArray(event.segs)`, and the millisecond fields may be absent. -/
structure Json3Event where
  segs : Option (List Json3Seg)
  tStartMs : Option Int
  dDurationMs : Option Int
deriving DecidableEq, Repr

/-- A parsed JSON3 payload (`json.events` may be absent). -/
structure Json3 where
  events : Option (List Json3Event)
deriving DecidableEq, Repr

/-- `parseTranscriptJson3` (`src/youtube.js` and `src/fabric-youtube.js`):
keeps events whose `segs` is an array, concatenates the segment texts,
converts the millisecond fields to seconds by exact division, trims the
text and drops lines whose trimmed text is empty. -/
def parseTranscriptJson3 (json : Json3) : List NumLine :=
  (((json.events.getD []).filter (fun e => e.segs.isSome)).map (fun e =>
    let text := String.join ((e.segs.getD []).map (fun s => s.utf8.getD ""))
    let start : ℚ := ((e.tStartMs.getD 0 : Int) : ℚ) / 1000
    let dur : ℚ := ((e.dDurationMs.getD 0 : Int) : ℚ) / 1000
    NumLine.mk start dur (jsTrim text))).filter (fun line => line.text ≠ "")

/-- The scan of `line.match(/start="([\d.]+)"/)` (and the `dur` variant):
finds the first position where the literal attribute text is followed by a
non-empty run of digits/dots that is closed by `"`, and returns the run. -/
def findAttrNum (pat : List Char) : List Char → Option (List Char)
  | [] => none
  | x :: xs =>
    if pat.isPrefixOf (x :: xs) then
      let rest := (x :: xs).drop pat.length
      let run := rest.takeWhile (fun c => c.isDigit || c == '.')
      if !run.isEmpty && ((rest.drop run.length).head? == some '"') then some run
      else findAttrNum pat xs
    else findAttrNum pat xs

/-- Helper for the lazy regex `/<text.+?>/`: index of the first `'>'`
reachable without crossing a newline (`.` does not match `'\n'`). -/
def findCloseNoNl : List Char → Option Nat
  | [] => none
  | '>' :: _ => some 0
  | '\n' :: _ => none
  | _ :: t => (findCloseNoNl t).map (· + 1)

/-- Length of the match of `/<text.+?>/` at the head of `l`, if any:
the literal `<text`, at least one non-newline character, then the first
`'>'`. -/
def textTagSpanAt (l : List Char) : Option Nat :=
  if "<text".data.isPrefixOf l then
    match l.drop 5 with
    | [] => none
    | r0 :: rr =>
      if r0 = '\n' then none
      else (findCloseNoNl rr).map (fun k => 5 + 1 + (k + 1))
  else none

/-- `line.replace(/<text.+?>/, '')`: removes the first match only. -/
def removeFirstTextTag : List Char → List Char
  | [] => []
  | x :: xs =>
    match textTagSpanAt (x :: xs) with
    | some k => (x :: xs).drop k
    | none => x :: removeFirstTextTag xs

/-- `line.replace(/<\/?[^>]+(>|$)/g, '')` (fuel-driven; fuel = length
always suffices because each step consumes at least one character):
removes every `<`+run-of-non-`>` span that is closed by `>` or by the end
of the string. -/
def removeAllTagsFuel : Nat → List Char → List Char
  | 0, l => l
  | _, [] => []
  | fuel + 1, x :: xs =>
    if x = '<' then
      let run := xs.takeWhile (fun c => c ≠ '>')
      if run.isEmpty then x :: removeAllTagsFuel fuel xs
      else
        match xs.drop run.length with
        | '>' :: t => removeAllTagsFuel fuel t
        | _ => []
    else x :: removeAllTagsFuel fuel xs

/-- `line.replace(/<\/?[^>]+(>|$)/g, '')`. -/
def removeAllTags (l : List Char) : List Char :=
  removeAllTagsFuel l.length l

/-- The per-chunk body of `parseTranscriptXml`'s `.map`: extracts the
`start`/`dur` attribute captures (a failed match makes `[1]` throw a
`TypeError`, propagated as an error) and strips/decodes the text. -/
def parseXmlChunk (line : List Char) : Except JsErr XmlLine := do
  let start ← jsAccess (findAttrNum "start=\"".data line)
  let dur ← jsAccess (findAttrNum "dur=\"".data line)
  let txt := removeAllTags (removeFirstTextTag line)
  let txt := heDecode (replaceAmp txt)
  return XmlLine.mk ⟨start⟩ ⟨dur⟩ ⟨txt⟩

/-- Sequencing of `Except` over a list (the JS `.map` callback may throw). -/
def exceptMap {α β : Type} (f : α → Except JsErr β) : List α → Except JsErr (List β)
  | [] => .ok []
  | x :: xs => do
    let y ← f x
    let ys ← exceptMap f xs
    return y :: ys

/-- `parseTranscriptXml` (`src/youtube.js`): strips the XML prologue and
the `</transcript>` tag (first occurrence each, as JS string `replace`),
splits on `</text>`, keeps chunks with non-empty trim — note this tests
the *raw chunk*, markup included, not the extracted text — and maps each
chunk to an `XmlLine`. -/
def parseTranscriptXml (xml : String) : Except JsErr (List XmlLine) :=
  let l := replaceFirstL "<?xml version=\"1.0\" encoding=\"utf-8\" ?><transcript>".data [] xml.data
  let l := replaceFirstL "</transcript>".data [] l
  let chunks := (splitOnSubL "</text>".data l).filter (fun c => trimChars c ≠ [])
  exceptMap parseXmlChunk chunks

/-! ### VTT cleaning (`src/fabric-youtube.js`) -/

/-- `removeVttTags`: `text.replace(/<[^>]*>/g, '')` (fuel-driven). -/
def removeVttTagsFuel : Nat → List Char → List Char
  | 0, l => l
  | _, [] => []
  | fuel + 1, x :: xs =>
    if x = '<' then
      let run := xs.takeWhile (fun c => c ≠ '>')
      match xs.drop run.length with
      | '>' :: t => removeVttTagsFuel fuel t
      | _ => x :: xs
    else x :: removeVttTagsFuel fuel xs

/-- `removeVttTags`. -/
def removeVttTags (l : List Char) : List Char :=
  removeVttTagsFuel l.length l

/-- `isTimestamp`: `/^\d+$/.test(line) || /^\d{2}:\d{2}:\d{2}/.test(line)`. -/
def isTimestamp (l : List Char) : Bool :=
  (!l.isEmpty && l.all Char.isDigit) ||
  (match l with
   | a :: b :: ':' :: c :: d :: ':' :: e :: f :: _ =>
     a.isDigit && b.isDigit && c.isDigit && d.isDigit && e.isDigit && f.isDigit
   | _ => false)

/-- The per-line skip test of `cleanVttContent`. -/
def vttSkipLine (l : List Char) : Bool :=
  l.isEmpty || l = "WEBVTT".data || containsSub "-->".data l ||
  "NOTE".data.isPrefixOf l || "STYLE".data.isPrefixOf l ||
  "Kind:".data.isPrefixOf l || "Language:".data.isPrefixOf l ||
  isTimestamp l

/-- `cleanVttContent`: split on newlines, trim each line, drop headers,
cue timings and timestamp lines, strip cue markup, keep non-empty results
and join with single spaces. -/
def cleanVttContent (content : String) : String :=
  let lines := (splitChar '\n' content.data).map trimChars
  let kept := ((lines.filter (fun l => !vttSkipLine l)).map removeVttTags).filter
    (fun l => l ≠ [])
  joinSpace (kept.map (fun l => ⟨l⟩))

end YT

namespace YT

/-! ### Video metadata shapes (`ytdl.getBasicInfo`) -/

/-- One entry of `playerCaptionsTracklistRenderer.captionTracks`. -/
structure CaptionTrack where
  languageCode : String
  name : String
  kind : Option String
  baseUrl : String
deriving DecidableEq, Repr

/-- `playerCaptionsTracklistRenderer` (its `captionTracks` may be absent). -/
structure TracklistRenderer where
  captionTracks : Option (List CaptionTrack)
deriving DecidableEq, Repr

/-- The `captions` section of `player_response`. -/
structure CaptionsSection where
  playerCaptionsTracklistRenderer : Option TracklistRenderer
deriving DecidableEq, Repr

/-- `player_response` (its `captions` section may be absent). -/
structure PlayerResponse where
  captions : Option CaptionsSection
deriving DecidableEq, Repr

/-- The `videoDetails` fields the handlers read.  `lengthSeconds` is kept
as a natural number (ytdl carries it as a decimal string; the handlers
only floor-divide it by 60). -/
structure VideoDetails where
  title : String
  lengthSeconds : Nat
  description : String
deriving DecidableEq, Repr

/-- A `ytdl.getBasicInfo` result. -/
structure VideoInfo where
  videoDetails : VideoDetails
  player_response : Option PlayerResponse
deriving DecidableEq, Repr

/-- The optional chain
`info.player_response?.captions?.playerCaptionsTracklistRenderer?.captionTracks`. -/
def chainTracks (info : VideoInfo) : Option (List CaptionTrack) :=
  ((info.player_response.bind (fun p => p.captions)).bind
    (fun c => c.playerCaptionsTracklistRenderer)).bind (fun r => r.captionTracks)

/-! ### The transcript fetchers (`src/youtube.js`) -/

/-- A line returned by `TranscriptAPI.getTranscript`. -/
structure LibLine where
  text : String
  start : ℚ
  duration : ℚ
deriving DecidableEq, Repr

/-- The line sequence a fetcher returns.  The library and JSON3 paths
carry numeric start/duration; the XML path carries the regex-capture
strings.  Keeping the two shapes apart mirrors the dynamic types that
reach the `/transcript` handler's `item.start + item.dur`. -/
inductive FetchedLines where
  | nums (lines : List NumLine)
  | strs (lines : List XmlLine)
deriving DecidableEq, Repr

/-- Whether a fetched line sequence is non-empty. -/
def FetchedLines.nonEmpty : FetchedLines → Prop
  | .nums l => l ≠ []
  | .strs l => l ≠ []

instance : DecidablePred FetchedLines.nonEmpty := fun fl =>
  match fl with
  | .nums l => (inferInstance : Decidable (l ≠ []))
  | .strs l => (inferInstance : Decidable (l ≠ []))

/-- External-call outcomes `fetchTranscriptPrimary` depends on. -/
structure PrimaryEnv where
  /-- `TranscriptAPI.getTranscript(videoID, language)`. -/
  library : Except JsErr (List LibLine)
  /-- The `captionTracks` chain of `ytdl.getBasicInfo` with its `|| []`
  already applied (an error models a failed `getBasicInfo`). -/
  basicInfo : Except JsErr (List CaptionTrack)
  /-- `axios.get(url)` against a signed caption URL, returning the XML body. -/
  xml : String → Except JsErr String
  /-- `axios.get(jsonUrl)` returning the parsed JSON3 body. -/
  json3 : String → Except JsErr Json3


/-- The manual-scrape fallback shared by `fetchTranscriptPrimary`
(`src/youtube.js` lines 73-119): picks the track whose `languageCode`
equals the requested language *or defaults to the first track*, fetches
its signed URL, parses XML, retries the same URL with `&fmt=json3` when
the XML parse yields zero lines, and otherwise fails. -/
def primaryScrape (env : PrimaryEnv) (language : String) : Except JsErr FetchedLines := do
  let tracks ← env.basicInfo
  match tracks with
  | [] => throw ⟨"No captionTracks available to scrape.", none⟩
  | t0 :: _ =>
    let track := (tracks.find? (fun t => t.languageCode = language)).getD t0
    let url := track.baseUrl
    let xml ← match env.xml url with
      | .ok x => pure x
      | .error e =>
        throw ⟨"Manual scrape failed" ++
          (match e.status with
           | some s => " (status " ++ toString s ++ ")"
           | none => "") ++ ": " ++ e.message, none⟩
    let lines ← parseTranscriptXml xml
    if lines = [] then
      let jsonUrl := if containsSub "fmt=".data url.data then url else url ++ "&fmt=json3"
      match env.json3 jsonUrl with
      | .ok j =>
        let jsonLines := parseTranscriptJson3 j
        if jsonLines ≠ [] then return .nums jsonLines
        else throw ⟨"Manual scrape returned empty transcript.", none⟩
      | .error _ => throw ⟨"Manual scrape returned empty transcript.", none⟩
    else
      return .strs lines

/-- `fetchTranscriptPrimary`: tries the library first (any failure, and an
empty result, fall through to the manual scrape). -/
def fetchTranscriptPrimary (env : PrimaryEnv) (language : String) :
    Except JsErr FetchedLines :=
  match env.library with
  | .ok raw =>
    if raw = [] then primaryScrape env language
    else .ok (.nums (raw.map (fun r => NumLine.mk r.start r.duration r.text)))
  | .error _ => primaryScrape env language

/-- External-call outcomes `fetchTranscriptLegacy` depends on (the legacy
variant issues its own `getBasicInfo` and caption-URL requests). -/
structure LegacyEnv where
  library : Except JsErr (List LibLine)
  basicInfo : Except JsErr (List CaptionTrack)
  xml : String → Except JsErr String


/-- The error-message test of `fetchTranscriptLegacy`'s catch:
`/video unavailable|captions disabled|empty/.test(msg.toLowerCase())`. -/
def legacyMsgMatches (m : String) : Bool :=
  let lm := m.data.map toLowerAscii
  containsSub "video unavailable".data lm ||
  containsSub "captions disabled".data lm ||
  containsSub "empty".data lm

/-- The manual-scrape fallback of `fetchTranscriptLegacy` (no JSON3 retry). -/
def legacyScrape (env : LegacyEnv) (language : String) : Except JsErr FetchedLines := do
  let tracks ← env.basicInfo
  match tracks with
  | [] => throw ⟨"No captionTracks available to scrape.", none⟩
  | t0 :: _ =>
    let track := (tracks.find? (fun t => t.languageCode = language)).getD t0
    let xml ← env.xml track.baseUrl
    let lines ← parseTranscriptXml xml
    if lines = [] then throw ⟨"Manual scrape returned empty transcript.", none⟩
    else return .strs lines

/-- `fetchTranscriptLegacy`: tries the library; an empty result throws
`'empty'` (whose message matches the fallback filter), other library
errors fall through only when their message matches
`/video unavailable|captions disabled|empty/`. -/
def fetchTranscriptLegacy (env : LegacyEnv) (language : String) :
    Except JsErr FetchedLines :=
  match env.library with
  | .ok raw =>
    if raw = [] then legacyScrape env language
    else .ok (.nums (raw.map (fun r => NumLine.mk r.start r.duration r.text)))
  | .error e =>
    if legacyMsgMatches e.message then legacyScrape env language
    else .error e

/-- `fetchTranscript`: primary, then the legacy fallback on any failure. -/
def fetchTranscript (envP : PrimaryEnv) (envL : LegacyEnv) (language : String) :
    Except JsErr FetchedLines :=
  match fetchTranscriptPrimary envP language with
  | .ok lines => .ok lines
  | .error _ => fetchTranscriptLegacy envL language

end YT

namespace YT

/-! ### The external-process adapter (`src/fabric-youtube.js`) -/

/-- Observable resource effects of `fabricFetchTranscript`, in order. -/
inductive FabEff where
  | mkTmpDir
  | execYtDlp
  | readJson3
  | readVtt
  | cleanup
deriving DecidableEq, Repr

/-- External outcomes `fabricFetchTranscript` depends on. -/
structure FabricEnv where
  videoID : String
  lang : String
  /-- The `yt-dlp` subprocess: `.error stderr` models a non-zero exit. -/
  ytDlp : Except String Unit
  /-- The parsed content of the first `.json3` file in the temp directory,
  when one was produced. -/
  json3File : Option Json3
  /-- The content of the first `.vtt` file, when one was produced. -/
  vttFile : Option String

/-- `try { body } finally { cleanup() }`: the finaliser's effects run
after the body's, whether the body returned or threw. -/
def tryFinallyE (body : Except JsErr String × List FabEff) (finEffs : List FabEff) :
    Except JsErr String × List FabEff :=
  (body.1, body.2 ++ finEffs)

/-- The `.vtt` fallback step of `fabricFetchTranscript`. -/
def fabricVttStep (env : FabricEnv) (effs : List FabEff) :
    Except JsErr String × List FabEff :=
  match env.vttFile with
  | some content => (.ok (cleanVttContent content), effs ++ [.readVtt])
  | none => (.error ⟨"No JSON3 or VTT subtitles found", none⟩, effs)

/-- The `try` body of `fabricFetchTranscript`: run `yt-dlp`, prefer a
produced `.json3` file (joining its parsed lines' texts with spaces) and
fall back to a `.vtt` file; throw when the subprocess failed or neither
file was produced. -/
def fabricBody (env : FabricEnv) : Except JsErr String × List FabEff :=
  match env.ytDlp with
  | .error stderr => (.error ⟨"yt-dlp failed: " ++ stderr, none⟩, [.execYtDlp])
  | .ok _ =>
    match env.json3File with
    | some j =>
      let parsed := parseTranscriptJson3 j
      if parsed ≠ [] then
        (.ok (joinSpace (parsed.map (fun l => l.text))), [.execYtDlp, .readJson3])
      else fabricVttStep env [.execYtDlp, .readJson3]
    | none => fabricVttStep env [.execYtDlp]

/-- `fabricFetchTranscript` (`src/fabric-youtube.js`, json3/vtt variant):
rejects a missing video ID before any resource is acquired, then creates
the request-scoped temp directory and runs the body under
`try/finally(cleanup)`. -/
def fabricFetchTranscript (env : FabricEnv) : Except JsErr String × List FabEff :=
  if env.videoID = "" then (.error ⟨"Missing YouTube URL", none⟩, [])
  else
    let r := tryFinallyE (fabricBody env) [.cleanup]
    (r.1, .mkTmpDir :: r.2)

/-! ### `postWithRetry` (`src/index.js` lines 1074-1099) -/

/-- `RETRYABLE_STATUS_CODES`. -/
def RETRYABLE_STATUS_CODES : List Nat := [429, 500, 502, 503, 504]

/-- The retry test of `postWithRetry`'s catch:
`status` truthy and in `RETRYABLE_STATUS_CODES` (the source writes it
negated: `!status || !RETRYABLE_STATUS_CODES.has(status)` aborts). -/
def retryableStatus (e : JsErr) : Bool :=
  match e.status with
  | some s => RETRYABLE_STATUS_CODES.contains s
  | none => false

/-- The observable outcome of a `postWithRetry` run. -/
structure RetryOutcome (α : Type) where
  result : Except JsErr α
  attempts : Nat
  totalDelayMs : Nat
deriving Repr

/-- The `for` loop of `postWithRetry`.  `f attempt` is the outcome of the
`attempt`-th `axios.post`; the fuel argument only bounds the recursion
(entered with `fuel = maxAttempts`, it cannot run out because the loop
aborts at `attempt === maxAttempts`). -/
def retryGo {α : Type} (f : Nat → Except JsErr α) (maxAttempts baseDelayMs : Nat) :
    Nat → Nat → Nat → RetryOutcome α
  | 0, attempt, acc => ⟨.error ⟨"unreachable", none⟩, attempt, acc⟩
  | fuel + 1, attempt, acc =>
    match f attempt with
    | .ok v => ⟨.ok v, attempt, acc⟩
    | .error e =>
      if retryableStatus e ∧ attempt ≠ maxAttempts then
        retryGo f maxAttempts baseDelayMs fuel (attempt + 1)
          (acc + baseDelayMs * 2 ^ (attempt - 1))
      else ⟨.error e, attempt, acc⟩

/-- `postWithRetry(url, payload, options)`: at most
`options.maxAttempts || 3` attempts, retrying only on a retryable HTTP
status, sleeping `baseDelayMs * 2^(attempt-1)` before each retry. -/
def postWithRetry {α : Type} (f : Nat → Except JsErr α)
    (maxAttemptsOpt baseDelayOpt : Option Nat) : RetryOutcome α :=
  let maxA := jsOrNat maxAttemptsOpt 3
  let base := jsOrNat baseDelayOpt 500
  retryGo f maxA base maxA 1 0

/-! ### `buildTagsFromText` (`src/index.js` lines 1046-1072) -/

/-- The fixed stopword set. -/
def stopwords : List String :=
  ["the", "and", "for", "with", "that", "this", "from", "your", "you", "are",
   "was", "were", "has", "have", "had", "not", "but", "its", "into", "their",
   "they", "them", "then", "than", "also", "over", "more", "less", "very",
   "been", "being", "when", "where", "what", "which", "who", "why", "how",
   "can", "could", "will", "would", "should", "about", "after", "before",
   "because", "there", "here", "these", "those", "just", "like", "make",
   "made", "most", "such", "some", "only", "much", "many", "yourself"]

/-- A character kept by `.replace(/[^a-z0-9\s-]/g, ' ')` (after
lower-casing). -/
def isTagKeep (c : Char) : Bool :=
  ('a' ≤ c ∧ c ≤ 'z') || c.isDigit || isWs c || c == '-'

/-- JS `s.split(/\s+/)`: fields separated by whitespace runs; a leading or
trailing run contributes an empty field, exactly as in JS.  The `Bool`
flag records whether the previous character was whitespace. -/
def splitWsGo (inWs : Bool) : List Char → List Char → List (List Char)
  | [], acc => [acc.reverse]
  | x :: xs, acc =>
    if isWs x then
      if inWs then splitWsGo true xs []
      else acc.reverse :: splitWsGo true xs []
    else splitWsGo false xs (x :: acc)

/-- JS `s.split(/\s+/)`. -/
def splitWsRuns (l : List Char) : List (List Char) :=
  splitWsGo false l []

/-- The token list of `buildTagsFromText`: lower-case, replace everything
outside `[a-z0-9\s-]` by a space, split on whitespace runs, keep words of
length at least 4 that are not stopwords. -/
def tagWords (text : String) : List String :=
  let cleaned := (text.data.map toLowerAscii).map (fun c => if isTagKeep c then c else ' ')
  ((splitWsRuns cleaned).map (fun l => (⟨l⟩ : String))).filter
    (fun w => 4 ≤ w.length ∧ w ∉ stopwords)

/-- One step of the frequency count: a `Map` keeps first-insertion order,
so an existing key is bumped in place and a new key is appended. -/
def bumpCount (acc : List (String × Nat)) (w : String) : List (String × Nat) :=
  if acc.any (fun p => p.1 = w) then
    acc.map (fun p => if p.1 = w then (p.1, p.2 + 1) else p)
  else acc ++ [(w, 1)]

/-- The `counts` map of `buildTagsFromText`, as its insertion-ordered
entry list. -/
def countWords (ws : List String) : List (String × Nat) :=
  ws.foldl bumpCount []

/-- Stable insertion of an entry into a count-descending list: the new
entry goes after every entry with a strictly larger count and before
entries with an equal count that were inserted later — the unique
behaviour of JS's stable `sort((a, b) => b[1] - a[1])`. -/
def insertDesc (x : String × Nat) : List (String × Nat) → List (String × Nat)
  | [] => [x]
  | h :: t => if x.2 < h.2 then h :: insertDesc x t else x :: h :: t

/-- Stable sort by descending count (insertion sort; any stable algorithm
yields the same list as the JS engine's stable sort). -/
def sortDesc : List (String × Nat) → List (String × Nat)
  | [] => []
  | x :: t => insertDesc x (sortDesc t)

/-- The sorted entry list `Array.from(counts.entries()).sort((a, b) => b[1] - a[1])`. -/
def sortedTagEntries (text : String) : List (String × Nat) :=
  sortDesc (countWords (tagWords text))

/-- `buildTagsFromText`. -/
def buildTagsFromText (text : String) : List String :=
  ((sortedTagEntries text).take 10).map (fun p => p.1)

end YT

namespace YT

/-! ### Summary composers (frontmatter templating, `src/index.js`) -/

/-- The cached `transcripts` document's metadata fields, as read by the
summary endpoints. -/
structure TransMeta where
  title : String
  date : String
  category : String
  description : String
  image : String
  duration : Nat
  canonical_url : String
  author : String
  video_author : String
  video_url : String
  published_date : String
  tags : Option (List String)
deriving DecidableEq, Repr

/-- `yamlSafeDescription` of `/smart-summary-firebase-v3`: a literal
`|\n`, then the description with CRLF pairs replaced by LF, split on LF,
every line prefixed with exactly two spaces, re-joined with LF. -/
def yamlSafeDescription (raw : String) : String :=
  ⟨"|\n".data ++ intercalateChar '\n'
    ((splitChar '\n' (replaceCrlfL raw.data)).map (fun l => ' ' :: ' ' :: l))⟩

/-- The frontmatter template of `/smart-summary-firebase-v3`
(`src/index.js` lines 1503-1528). -/
def frontmatterV3 (m : TransMeta) (tags : List String) (videoID : String) : String :=
  "---\ntitle: \"" ++ m.title ++ "\"\ndate: " ++ m.date ++
  "\ncategory: " ++ m.category ++
  "\ndescription: " ++ yamlSafeDescription m.description ++
  "\nimage: '" ++ m.image ++ "'\nduration: " ++ toString m.duration ++
  "\ntags: \n" ++ joinNl (tags.map (fun t => "  - " ++ t)) ++
  "\ncanonical_url: " ++ m.canonical_url ++
  "\nauthor: " ++ m.author ++
  "\nvideo_author: " ++ m.video_author ++
  "\nvideo_url: " ++ m.video_url ++
  "\nvideo_id: " ++ videoID ++
  "\npublished_date: " ++ m.published_date ++
  "\n---\n![](https://www.youtube.com/watch?v=" ++ videoID ++ ")\n# " ++
  m.title ++ "\n"

/-- The frontmatter template of `/smart-summary-firebase-v2`
(`src/index.js` lines 1355-1367): the description is interpolated after a
single `  ` — only its first line is indented and no newline
normalization is applied. -/
def frontmatterV2 (m : TransMeta) (tags : List String) (videoID : String) : String :=
  "---\ntitle: \"" ++ m.title ++ "\"\ndate: " ++ m.date ++
  "\ndescription: |\n  " ++ m.description ++
  "\nimage: '" ++ m.image ++ "'\ntags:\n" ++
  joinNl (tags.map (fun t => "  - " ++ t)) ++
  "\ncanonical_url: " ++ m.canonical_url ++
  "\nauthor: " ++ m.author ++
  "\n---\n![](https://www.youtube.com/watch?v=" ++ videoID ++ ")\n# " ++
  m.title ++ "\n"

end YT

namespace YT

/-! ### Endpoint responses -/

/-- A dynamically-typed JS value as it appears in the `/transcript`
response's time fields: the library/JSON3 paths put numbers there, the
XML path puts the capture strings there. -/
inductive JsVal where
  | num (q : ℚ)
  | str (s : String)
deriving DecidableEq, Repr

/-- One line of the `/transcript` response's `custom` array. -/
structure EndLine where
  start : JsVal
  endVal : JsVal
  text : String
deriving DecidableEq, Repr

/-- The `lines.map(item => ({start, end: item.start + item.dur, text}))`
of `/transcript`: JS `+` is numeric addition on two numbers and string
concatenation when the operands are strings (the XML-parse path). -/
def customLines : FetchedLines → List EndLine
  | .nums l => l.map (fun i => EndLine.mk (.num i.start) (.num (i.start + i.dur)) i.text)
  | .strs l => l.map (fun i => EndLine.mk (.str i.start) (.str (i.start ++ i.dur)) i.text)

/-- The texts of a fetched line sequence. -/
def flTexts : FetchedLines → List String
  | .nums l => l.map (fun i => i.text)
  | .strs l => l.map (fun i => i.text)

/-- The response fields the claims observe (payload fields that no claim
mentions — thumbnails, embed info, view counts, the per-language
duplication of `/transcript`'s line list — are elided). -/
structure Res where
  status : Nat
  message : String
  transcript : Option String
  transcriptLanguageCode : Option String
  lines : Option (List EndLine)
  summary : Option String
  fromCache : Option Bool
deriving DecidableEq, Repr

/-- An error/plain-message response. -/
def Res.err (s : Nat) (m : String) : Res :=
  ⟨s, m, none, none, none, none, none⟩

/-- A line returned by `getSubtitles` (`youtube-captions-scraper`); the
handlers only read its `text`. -/
structure SubLine where
  text : String
deriving DecidableEq, Repr

/-! ### POST /transcript (`src/index.js` lines 169-259) -/

/-- External-call outcomes `POST /transcript` depends on. -/
structure TranscriptEnv where
  videoID : Except JsErr String
  videoInfo : Except JsErr VideoInfo
  /-- `fetchTranscript(videoID, languageCode)`. -/
  fetchLines : String → String → Except JsErr FetchedLines

/-- The `try` body of `POST /transcript`.  A successful `getBasicInfo`
always carries `videoDetails`, so the `!videoInfo || !videoInfo.videoDetails`
guard cannot fire and is not modelled. -/
def transcriptBody (env : TranscriptEnv) : Except JsErr Res := do
  let videoID ← env.videoID
  if videoID = "" then return Res.err 400 "Invalid YouTube URL"
  let info ← env.videoInfo
  match (info.player_response.bind (fun p => p.captions)).bind
      (fun c => c.playerCaptionsTracklistRenderer) with
  | none => return Res.err 404 "No captions available for this video."
  | some renderer =>
    match renderer.captionTracks with
    | none => return Res.err 404 "No captions available for this video."
    | some [] => return Res.err 404 "No captions available for this video."
    | some (t0 :: _) =>
      let lines ← env.fetchLines videoID t0.languageCode
      return ⟨200, "success", none, none, some (customLines lines), none, none⟩

/-- `POST /transcript`. -/
def transcriptHandler (env : TranscriptEnv) : Res :=
  match transcriptBody env with
  | .ok r => r
  | .error _ => Res.err 500 "An error occurred while fetching the transcript."

/-! ### POST /simple-transcript (`src/index.js` lines 272-310) -/

/-- External-call outcomes `POST /simple-transcript` depends on. -/
structure SimpleEnv where
  videoID : Except JsErr String
  videoInfo : Except JsErr VideoInfo
  /-- `fabricFetchTranscript(videoID, languageCode)`. -/
  fabric : String → String → Except JsErr String

/-- The `try` body of `POST /simple-transcript`.  The caption-track list
is read through the *unguarded* chain
`videoInfo.player_response.captions.playerCaptionsTracklistRenderer.captionTracks`,
so a missing link throws a `TypeError`. -/
def simpleTranscriptBody (env : SimpleEnv) : Except JsErr Res := do
  let videoID ← env.videoID
  let info ← env.videoInfo
  let _duration := info.videoDetails.lengthSeconds / 60
  let pr ← jsAccess info.player_response
  let caps ← jsAccess pr.captions
  let renderer ← jsAccess caps.playerCaptionsTracklistRenderer
  match renderer.captionTracks with
  | none => return Res.err 404 "No captions available for this video."
  | some [] => return Res.err 404 "No captions available for this video."
  | some (t0 :: _) =>
    let tx ← env.fabric videoID t0.languageCode
    return ⟨200, "", some tx, none, none, none, none⟩

/-- `POST /simple-transcript`. -/
def simpleTranscriptHandler (env : SimpleEnv) : Res :=
  match simpleTranscriptBody env with
  | .ok r => r
  | .error _ => Res.err 500 "An error occurred while fetching the simple transcript."

/-! ### POST /simple-transcript-v2 (`src/index.js` lines 351-480) -/

/-- External-call outcomes `POST /simple-transcript-v2` depends on. -/
structure SimpleV2Env where
  lang : Option String
  videoID : Except JsErr String
  videoInfo : Except JsErr VideoInfo
  /-- `getSubtitles({videoID, lang})`. -/
  getSubtitles : String → String → Except JsErr (List SubLine)

/-- The non-auto-generated-English preference test
(`track.languageCode.startsWith('en') && track.kind !== 'asr'`). -/
def isNonAsrEn (t : CaptionTrack) : Bool :=
  jsStartsWith t.languageCode "en" && !(t.kind == some "asr")

/-- The any-English test (`track.languageCode.startsWith('en')`). -/
def isEn (t : CaptionTrack) : Bool :=
  jsStartsWith t.languageCode "en"

/-- The shared preference idiom
`tracks.find(nonAsrEn) || tracks.find(en) || tracks[0]`. -/
def preferredTrack (tracks : List CaptionTrack) (t0 : CaptionTrack) : CaptionTrack :=
  (tracks.find? isNonAsrEn <|> tracks.find? isEn).getD t0

/-- The `try` body of `POST /simple-transcript-v2`: the same unguarded
caption chain as `/simple-transcript`; with a requested language the
handler checks availability and then evaluates `fetchTranscript(videoID,
languageCode)` — but `languageCode` is not declared anywhere in this
handler's scope, so the reference throws a `ReferenceError`. -/
def simpleTranscriptV2Body (env : SimpleV2Env) : Except JsErr Res := do
  let videoID ← env.videoID
  let info ← env.videoInfo
  let _duration := info.videoDetails.lengthSeconds / 60
  let pr ← jsAccess info.player_response
  let caps ← jsAccess pr.captions
  let renderer ← jsAccess caps.playerCaptionsTracklistRenderer
  match renderer.captionTracks with
  | none => return Res.err 404 "No captions available for this video."
  | some [] => return Res.err 404 "No captions available for this video."
  | some (t0 :: rest) =>
    let tracks := t0 :: rest
    if truthyOpt env.lang then
      let lg := env.lang.getD ""
      match tracks.find? (fun t => t.languageCode = lg) with
      | none =>
        return Res.err 404 ("No captions available in the requested language (" ++ lg ++ ").")
      | some _ => throw ⟨"languageCode is not defined", none⟩
    else
      match tracks.find? isNonAsrEn <|> tracks.find? isEn with
      | some et =>
        let transcript ← env.getSubtitles videoID "en"
        if transcript = [] then throw ⟨"No English captions available.", none⟩
        return ⟨200, "", some (joinSpace (transcript.map (fun s => s.text))),
          some et.languageCode, none, none, none⟩
      | none =>
        let transcript ← env.getSubtitles videoID t0.languageCode
        if transcript = [] then throw ⟨"No captions available in the first language.", none⟩
        return ⟨200, "", some (joinSpace (transcript.map (fun s => s.text))),
          some t0.languageCode, none, none, none⟩

/-- `POST /simple-transcript-v2`. -/
def simpleTranscriptV2Handler (env : SimpleV2Env) : Res :=
  match simpleTranscriptV2Body env with
  | .ok r => r
  | .error _ => Res.err 500 "An error occurred while fetching the simple transcript."

end YT

namespace YT

/-! ### POST /simple-transcript-v3 (`src/index.js` lines 505-717) -/

/-- One per-language entry of the `transcripts-multilingual` cache. -/
structure V3LangEntry where
  language : String
  title : String
  transcript : String
deriving DecidableEq, Repr

/-- An `availableLanguages` entry (`{name, code}`). -/
structure LangOption where
  name : String
  code : String
deriving DecidableEq, Repr

/-- A cached `transcripts-multilingual` document. -/
structure V3Cache where
  videoID : String
  duration : Nat
  transcript : List V3LangEntry
  availableLanguages : List LangOption
deriving DecidableEq, Repr

/-- External-call outcomes `POST /simple-transcript-v3` depends on. -/
structure SimpleV3Env where
  lang : Option String
  videoID : Except JsErr String
  cachedDoc : Option V3Cache
  /-- `safeGetVideoInfo`: `.ok none` models a private video. -/
  safeInfo : Except JsErr (Option VideoInfo)
  /-- `fabricFetchTranscript(videoID, lang)`. -/
  fabric : String → String → Except JsErr String

/-- The `try` body of `POST /simple-transcript-v3`.  On a cache hit with a
requested language the lookup accepts an exact *or prefix* match; a cached
miss for that language fetches it without checking availability.  On a
cache miss the caption list is read through optional chaining, a requested
language must match exactly, and otherwise the non-asr-English / English /
first-track preference picks the language.  (The Firestore writes are not
modelled; they do not affect the response.) -/
def simpleTranscriptV3Body (env : SimpleV3Env) : Except JsErr Res := do
  let videoID ← env.videoID
  match env.cachedDoc with
  | some cached =>
    if ¬ truthyOpt env.lang then
      match cached.transcript with
      | [] => throw ⟨"TypeError", none⟩
      | e0 :: _ =>
        return ⟨200, "", some e0.transcript, some e0.language, none, none, none⟩
    else
      let lg := env.lang.getD ""
      match cached.transcript.find? (fun t => t.language = lg) <|>
          cached.transcript.find? (fun t => jsStartsWith t.language lg) with
      | some e => return ⟨200, "", some e.transcript, some e.language, none, none, none⟩
      | none =>
        let infoOpt ← env.safeInfo
        match infoOpt with
        | none => return Res.err 403 "This is a private video. Cannot fetch transcript."
        | some _info =>
          let tx ← env.fabric videoID lg
          return ⟨200, "", some tx, some lg, none, none, none⟩
  | none =>
    let infoOpt ← env.safeInfo
    match infoOpt with
    | none => return Res.err 403 "This is a private video. Cannot fetch transcript."
    | some info =>
      let _duration := info.videoDetails.lengthSeconds / 60
      match chainTracks info with
      | none => return Res.err 404 "No captions available for this video."
      | some [] => return Res.err 404 "No captions available for this video."
      | some (t0 :: rest) =>
        let tracks := t0 :: rest
        if truthyOpt env.lang then
          let lg := env.lang.getD ""
          match tracks.find? (fun t => t.languageCode = lg) with
          | none =>
            return Res.err 404 ("No captions available in the requested language (" ++ lg ++ ").")
          | some _ =>
            let tx ← env.fabric videoID lg
            return ⟨200, "", some tx, some lg, none, none, none⟩
        else
          let preferred := preferredTrack tracks t0
          let tx ← env.fabric videoID preferred.languageCode
          return ⟨200, "", some tx, some preferred.languageCode, none, none, none⟩

/-- `POST /simple-transcript-v3`. -/
def simpleTranscriptV3Handler (env : SimpleV3Env) : Res :=
  match simpleTranscriptV3Body env with
  | .ok r => r
  | .error _ => Res.err 500 "An error occurred while fetching and saving the transcript."

/-! ### POST /smart-transcript (`src/index.js` lines 731-807) -/

/-- A cached `transcripts` document as the smart endpoints read it. -/
structure SmartCache where
  videoID : String
  title : String
  duration : Nat
  transcript : String
deriving DecidableEq, Repr

/-- External-call outcomes `POST /smart-transcript` depends on. -/
structure SmartEnv where
  videoID : Except JsErr String
  cachedDoc : Option SmartCache
  videoInfo : Except JsErr VideoInfo
  getSubtitles : String → String → Except JsErr (List SubLine)

/-- The `try` body of `POST /smart-transcript`: cache hit returns the
stored document; otherwise the guarded caption checks, then the inner
`try/catch` that maps an empty or failed `getSubtitles` to a 404. -/
def smartTranscriptBody (env : SmartEnv) : Except JsErr Res := do
  let videoID ← env.videoID
  match env.cachedDoc with
  | some c => return ⟨200, "", some c.transcript, none, none, none, none⟩
  | none =>
    let info ← env.videoInfo
    let _duration := info.videoDetails.lengthSeconds / 60
    match (info.player_response.bind (fun p => p.captions)).bind
        (fun c => c.playerCaptionsTracklistRenderer) with
    | none => return Res.err 404 "No captions available for this video."
    | some renderer =>
      match renderer.captionTracks with
      | none => return Res.err 404 "No captions available for this video."
      | some [] => return Res.err 404 "No captions available for this video."
      | some (t0 :: _) =>
        match env.getSubtitles videoID t0.languageCode with
        | .ok ts =>
          if ts = [] then return Res.err 404 "No transcript found for this video."
          else
            return ⟨200, "", some (joinSpace (ts.map (fun s => s.text))), none, none,
              none, none⟩
        | .error _ => return Res.err 404 "No transcript found for this video."

/-- `POST /smart-transcript`. -/
def smartTranscriptHandler (env : SmartEnv) : Res :=
  match smartTranscriptBody env with
  | .ok r => r
  | .error _ => Res.err 500 "An error occurred while processing the transcript."

/-! ### POST /smart-transcript-v2 (`src/index.js` lines 824-986) -/

/-- External-call outcomes `POST /smart-transcript-v2` depends on. -/
structure SmartV2Env where
  url : String
  videoID : Except JsErr String
  cachedDoc : Option SmartCache
  videoInfo : Except JsErr VideoInfo
  fabric : String → String → Except JsErr String
  getSubtitles : String → String → Except JsErr (List SubLine)
  fetchLines : String → String → Except JsErr FetchedLines

/-- The `try` body of `POST /smart-transcript-v2`: URL and video-ID
validation, cache hit only when the stored `transcript` is truthy, the
`|| []` caption chain, the non-asr-English preference, then the
fabric → getSubtitles → fetchTranscript cascade in which every fetch
failure is caught and logged (the metadata/slug assembly and the
Firestore write do not affect the observed fields and are elided; the
`warning` field of the response is carried in `message`). -/
def smartTranscriptV2Body (env : SmartV2Env) : Except JsErr Res := do
  if env.url = "" then return Res.err 400 "URL is required"
  let videoID ← match env.videoID with
    | .ok v => pure v
    | .error _ => return Res.err 400 "Invalid YouTube URL"
  let cachedHit := match env.cachedDoc with
    | some c => if c.transcript ≠ "" then some c else none
    | none => none
  match cachedHit with
  | some c => return ⟨200, "", some c.transcript, none, none, none, none⟩
  | none =>
    let info ← env.videoInfo
    let _duration := info.videoDetails.lengthSeconds / 60
    match (chainTracks info).getD [] with
    | [] => return Res.err 404 "No captions available for this video."
    | t0 :: rest =>
      let tracks := t0 :: rest
      let preferred := preferredTrack tracks t0
      let languageCode := preferred.languageCode
      let t1 := match env.fabric videoID languageCode with
        | .ok s => s
        | .error _ => ""
      let t2 := if t1 = "" then
          match env.getSubtitles videoID languageCode with
          | .ok l => if l = [] then "" else joinSpace (l.map (fun s => s.text))
          | .error _ => ""
        else t1
      let transcript := if t2 = "" then
          match env.fetchLines videoID (if languageCode = "" then "en" else languageCode) with
          | .ok fl => joinSpace (flTexts fl)
          | .error _ => ""
        else t2
      return ⟨200, if transcript = "" then "No transcript found, but metadata saved." else "",
        some transcript, none, none, none, none⟩

/-- `POST /smart-transcript-v2`. -/
def smartTranscriptV2Handler (env : SmartV2Env) : Res :=
  match smartTranscriptV2Body env with
  | .ok r => r
  | .error _ => Res.err 500 "An error occurred while processing the transcript."

/-! ### GET /api/transcript (`src/index.js` lines 119-155) -/

/-- Query parameters and call outcomes of `GET /api/transcript`. -/
structure ApiEnv where
  videoIdParam : Option String
  /-- `lang = 'en'` is a destructuring default: it applies only when the
  parameter is absent. -/
  langParam : Option String
  fetchLines : String → String → Except JsErr FetchedLines

/-- `GET /api/transcript`: its catch classifies the thrown error by
status 401, by `/missing app check token/i`, and by
`/no captiontracks|captions|transcript/i`, mapping those to 404s (the
last with the raw error message) and everything else to a 500. -/
def apiTranscriptHandler (env : ApiEnv) : Res :=
  let lang := env.langParam.getD "en"
  match env.videoIdParam with
  | none => Res.err 400 "videoId required"
  | some vid =>
    if vid = "" then Res.err 400 "videoId required"
    else
      match env.fetchLines vid lang with
      | .ok fl =>
        if flTexts fl = [] then Res.err 404 "No captions found"
        -- the 200 payload (`videoId`, `lang`, the `captions` array) is not
        -- observed by any claim
        else ⟨200, "", none, none, none, none, none⟩
      | .error e =>
        let message := if e.message = "" then "Failed to fetch transcript" else e.message
        if e.status == some 401 || containsCI "missing app check token" message then
          Res.err 404 "No captions found"
        else if containsCI "no captiontracks" message || containsCI "captions" message ||
            containsCI "transcript" message then
          Res.err 404 message
        else Res.err 500 "Failed to fetch transcript"

end YT

namespace YT

/-! ### The summary endpoints (`src/index.js` lines 1101-1549) -/

/-- A stored `summaries` document as the cache check reads it. -/
structure SummaryRecord where
  summary : Option String
deriving DecidableEq, Repr

/-- Externally visible side effects of a summary handler run. -/
inductive SumEff where
  | modelCall
  | saveSummary
  | saveTags
deriving DecidableEq, Repr

/-- The fields the handlers read from a model endpoint's response body. -/
structure ModelData where
  /-- `data.choices?.[0]?.message?.content`. -/
  choicesContent : Option String
  /-- `data.content?.[0]?.text` (the anthropic shape). -/
  content0Text : Option String
  /-- `data.summary?.choices?.[0]?.message?.content` (v2). -/
  summaryChoicesContent : Option String
  /-- `data.summaryText` (v3). -/
  summaryText : Option String
  /-- `data.text` (v3). -/
  text : Option String
  /-- `data.tags` (v2). -/
  tags : Option (List String)
deriving DecidableEq, Repr

/-! #### POST /smart-summary (lines 1101-1204) -/

/-- External-call outcomes `POST /smart-summary` depends on. -/
structure SmartSummaryEnv where
  url : String
  /-- `req.body.transcript`. -/
  transcriptParam : Option String
  model : Option String
  videoID : Except JsErr String
  summariesDoc : Option SummaryRecord
  /-- `getSubtitles({videoID, lang: 'en'})`. -/
  getSubtitles : Except JsErr (List SubLine)
  /-- Whether `modelUrls[model]` is configured. -/
  modelUrlValid : Bool
  /-- The direct `axios.post` to the model endpoint. -/
  modelResponse : Except JsErr ModelData

/-- The no-usable-cache tail of `POST /smart-summary`: resolve the
transcript (the client's, or `getSubtitles` joined without an emptiness
check), validate the model, call it, store the summary only when truthy,
and answer `{summary, fromCache: false}`. -/
def smartSummaryRegen (env : SmartSummaryEnv) : Res × List SumEff :=
  let rawT : Except JsErr String :=
    if truthyOpt env.transcriptParam then .ok (env.transcriptParam.getD "")
    else match env.getSubtitles with
      | .ok l => .ok (joinSpace (l.map (fun s => s.text)))
      | .error e => .error e
  match rawT with
  | .error _ => (Res.err 500 "Error generating smart summary", [])
  | .ok _raw =>
    if ¬ env.modelUrlValid then (Res.err 400 "Invalid model specified", [])
    else
      match env.modelResponse with
      | .error _ => (Res.err 500 "Error generating smart summary", [.modelCall])
      | .ok d =>
        let summary := d.choicesContent
        (⟨200, "", none, none, none, summary, some false⟩,
          [SumEff.modelCall] ++ (if truthyOpt summary then [SumEff.saveSummary] else []))

/-- `POST /smart-summary`: the stored record is a cache hit exactly when
its `summary` field is truthy; otherwise the handler regenerates. -/
def smartSummaryHandler (env : SmartSummaryEnv) : Res × List SumEff :=
  if env.url = "" then (Res.err 400 "URL is required", [])
  else
    match env.videoID with
    | .error _ => (Res.err 500 "Error generating smart summary", [])
    | .ok _vid =>
      match env.summariesDoc with
      | some data =>
        if truthyOpt data.summary then
          (⟨200, "", none, none, none, data.summary, some true⟩, [])
        else smartSummaryRegen env
      | none => smartSummaryRegen env

/-! #### POST /smart-summary-firebase (lines 1221-1279) -/

/-- External-call outcomes `POST /smart-summary-firebase` depends on. -/
structure FirebaseSummaryEnv where
  url : String
  model : Option String
  videoID : Except JsErr String
  summariesDoc : Option SummaryRecord
  modelUrlValid : Bool
  modelResponse : Except JsErr ModelData

/-- The no-usable-cache tail of `POST /smart-summary-firebase`. -/
def smartSummaryFirebaseRegen (env : FirebaseSummaryEnv) : Res × List SumEff :=
  if ¬ env.modelUrlValid then (Res.err 400 "Invalid model specified", [])
  else
    match env.modelResponse with
    | .error _ => (Res.err 500 "Error generating smart summary", [.modelCall])
    | .ok d =>
      let summary := if env.model = some "anthropic" then d.content0Text
        else d.choicesContent
      (⟨200, "", none, none, none, summary, some false⟩,
        [SumEff.modelCall] ++ (if truthyOpt summary then [SumEff.saveSummary] else []))

/-- `POST /smart-summary-firebase`. -/
def smartSummaryFirebaseHandler (env : FirebaseSummaryEnv) : Res × List SumEff :=
  if env.url = "" then (Res.err 400 "URL is required", [])
  else
    match env.videoID with
    | .error _ => (Res.err 500 "Error generating smart summary", [])
    | .ok _vid =>
      match env.summariesDoc with
      | some data =>
        if truthyOpt data.summary then
          (⟨200, "", none, none, none, data.summary, some true⟩, [])
        else smartSummaryFirebaseRegen env
      | none => smartSummaryFirebaseRegen env

/-! #### POST /smart-summary-firebase-v2 (lines 1301-1397) -/

/-- External-call outcomes `POST /smart-summary-firebase-v2` depends on. -/
structure FirebaseV2Env where
  url : String
  model : Option String
  videoID : Except JsErr String
  summariesDoc : Option SummaryRecord
  transcriptsDoc : Option TransMeta
  modelUrlValid : Bool
  modelResponse : Except JsErr ModelData

/-- The no-usable-cache tail of `POST /smart-summary-firebase-v2`:
requires the transcript metadata, calls the model, and prefixes the
returned summary with the v2 frontmatter. -/
def smartSummaryFirebaseV2Regen (env : FirebaseV2Env) (videoID : String) :
    Res × List SumEff :=
  match env.transcriptsDoc with
  | none => (Res.err 404 "Transcript not found for this video.", [])
  | some metadata =>
    if ¬ env.modelUrlValid then (Res.err 400 "Invalid model specified", [])
    else
      match env.modelResponse with
      | .error _ => (Res.err 500 "Error generating smart summary", [.modelCall])
      | .ok d =>
        let plainSummary := d.summaryChoicesContent
        let tags := d.tags.getD []
        if ¬ truthyOpt plainSummary then
          (Res.err 500 "Model did not return a summary", [.modelCall])
        else
          let full := frontmatterV2 metadata tags videoID ++ plainSummary.getD ""
          (⟨200, "", none, none, none, some full, some false⟩,
            [.modelCall, .saveSummary, .saveTags])

/-- `POST /smart-summary-firebase-v2`. -/
def smartSummaryFirebaseV2Handler (env : FirebaseV2Env) : Res × List SumEff :=
  if env.url = "" then (Res.err 400 "URL is required", [])
  else
    match env.videoID with
    | .error _ => (Res.err 500 "Error generating smart summary", [])
    | .ok vid =>
      match env.summariesDoc with
      | some data =>
        if truthyOpt data.summary then
          (⟨200, "", none, none, none, data.summary, some true⟩, [])
        else smartSummaryFirebaseV2Regen env vid
      | none => smartSummaryFirebaseV2Regen env vid

/-! #### POST /smart-summary-firebase-v3 (lines 1437-1549) -/

/-- External-call outcomes `POST /smart-summary-firebase-v3` depends on. -/
structure FirebaseV3Env where
  url : String
  model : Option String
  videoID : Except JsErr String
  summariesDoc : Option SummaryRecord
  transcriptsDoc : Option TransMeta
  modelUrlValid : Bool
  /-- The outcome of the `attempt`-th POST to the model endpoint (consumed
  through `postWithRetry`). -/
  modelAttempt : Nat → Except JsErr ModelData

/-- The no-usable-cache tail of `POST /smart-summary-firebase-v3`:
requires the transcript metadata, calls the model through `postWithRetry`
(3 attempts, 750ms base delay), picks the summary text by model shape,
derives fallback tags with `buildTagsFromText` when the metadata has
none, and prefixes the summary with the v3 frontmatter. -/
def smartSummaryFirebaseV3Regen (env : FirebaseV3Env) (videoID : String) :
    Res × List SumEff :=
  match env.transcriptsDoc with
  | none => (Res.err 404 "Transcript not found for this video.", [])
  | some metadata =>
    let tags0 := metadata.tags.getD []
    if ¬ env.modelUrlValid then (Res.err 400 "Invalid model specified", [])
    else
      match (postWithRetry env.modelAttempt (some 3) (some 750)).result with
      | .error _ => (Res.err 502 "Model request failed", [.modelCall])
      | .ok d =>
        let summary := if env.model = some "anthropic" then d.content0Text
          else jsOrStr d.summaryText d.text
        if ¬ truthyOpt summary then
          (Res.err 500 "Model did not return a summary", [.modelCall])
        else
          let s := summary.getD ""
          let tags := if tags0 = [] then
              buildTagsFromText (joinSpace
                (([metadata.title, metadata.description, s]).filter (fun x => x ≠ "")))
            else tags0
          let full := frontmatterV3 metadata tags videoID ++ s
          (⟨200, "", none, none, none, some full, some false⟩, [.modelCall, .saveSummary])

/-- `POST /smart-summary-firebase-v3`. -/
def smartSummaryFirebaseV3Handler (env : FirebaseV3Env) : Res × List SumEff :=
  if env.url = "" then (Res.err 400 "URL is required", [])
  else if ¬ truthyOpt env.model then (Res.err 400 "Model is required", [])
  else
    match env.videoID with
    | .error _ => (Res.err 400 "Invalid YouTube URL", [])
    | .ok vid =>
      match env.summariesDoc with
      | some data =>
        if truthyOpt data.summary then
          (⟨200, "", none, none, none, data.summary, some true⟩, [])
        else smartSummaryFirebaseV3Regen env vid
      | none => smartSummaryFirebaseV3Regen env vid

end YT

deriving instance DecidableEq for Except

namespace YT

/-! ### Concrete inputs used by witnesses and counterexamples -/

/-- A metadata response whose captions section holds an *empty* track list. -/
def infoEmptyTracks : VideoInfo :=
  ⟨⟨"Demo", 300, "desc"⟩, some ⟨some ⟨some ⟨some []⟩⟩⟩⟩

/-- A metadata response lacking the captions section entirely
(`player_response.captions` is `undefined`). -/
def infoNoCaptions : VideoInfo :=
  ⟨⟨"Demo", 300, "desc"⟩, some ⟨none⟩⟩

/-- A metadata response with a single German caption track. -/
def infoDeTrack : VideoInfo :=
  ⟨⟨"Demo", 300, "desc"⟩, some ⟨some ⟨some ⟨some [⟨"de", "German", none, "https://yt.example/de"⟩]⟩⟩⟩⟩

/-- A caption XML body with one cue (`start="1.5" dur="2"`, text `Hallo`). -/
def xmlHallo : String :=
  "<?xml version=\"1.0\" encoding=\"utf-8\" ?><transcript><text start=\"1.5\" dur=\"2\">Hallo</text></transcript>"

/-- A caption XML body whose single cue has empty text. -/
def xmlEmptyText : String :=
  "<?xml version=\"1.0\" encoding=\"utf-8\" ?><transcript><text start=\"0\" dur=\"1\"></text></transcript>"

/-- A caption XML body with one cue (`start="7.5" dur="2"`, text `Hello`). -/
def xmlHello : String :=
  "<?xml version=\"1.0\" encoding=\"utf-8\" ?><transcript><text start=\"7.5\" dur=\"2\">Hello</text></transcript>"

/-- `/simple-transcript` environment for a video whose metadata lacks the
captions section. -/
def envC1simple : SimpleEnv :=
  ⟨.ok "vid01", .ok infoNoCaptions, fun _ _ => .ok "some transcript"⟩

/-- `/simple-transcript` environment for a video with an empty track list. -/
def envC1simpleEmpty : SimpleEnv :=
  ⟨.ok "vid01", .ok infoEmptyTracks, fun _ _ => .ok "some transcript"⟩

/-- `/transcript` environment for a video with an empty track list. -/
def envC1transcript : TranscriptEnv :=
  ⟨.ok "vid01", .ok infoEmptyTracks, fun _ _ => .ok (.nums [⟨0, 1, "hi"⟩])⟩

/-- `/simple-transcript-v3` (uncached) environment for a video with an
empty track list. -/
def envC1v3 : SimpleV3Env :=
  ⟨none, .ok "vid01", none, .ok (some infoEmptyTracks), fun _ _ => .ok "tx"⟩

/-- Primary-fetch environment where the library adapter fails, the video
offers only a German track, and its signed URL serves `xmlHallo`: a
request for Spanish is silently served from the German track. -/
def envC2prim : PrimaryEnv :=
  ⟨.error ⟨"Video unavailable", none⟩,
   .ok [⟨"de", "German", none, "https://yt.example/de"⟩],
   fun u => if u = "https://yt.example/de" then .ok xmlHallo else .error ⟨"404", some 404⟩,
   fun _ => .error ⟨"no json", none⟩⟩

/-- `/simple-transcript-v2` environment with an explicitly requested,
available Spanish track. -/
def envC2v2 : SimpleV2Env :=
  ⟨some "es", .ok "vid01",
   .ok ⟨⟨"Demo", 300, "desc"⟩, some ⟨some ⟨some ⟨some [⟨"es", "Spanish", none, "https://yt.example/es"⟩]⟩⟩⟩⟩,
   fun _ _ => .ok [⟨"hola"⟩]⟩

/-- `/simple-transcript-v3` (uncached) environment with English and
Spanish tracks, fabric fetch succeeding per language. -/
def envC2v3 : SimpleV3Env :=
  ⟨some "es", .ok "vid01", none,
   .ok (some ⟨⟨"Demo", 300, "desc"⟩, some ⟨some ⟨some ⟨some
     [⟨"en", "English", some "asr", "https://yt.example/en"⟩,
      ⟨"es", "Spanish", none, "https://yt.example/es"⟩]⟩⟩⟩⟩),
   fun _ lg => .ok ("tx-" ++ lg)⟩

/-- `/transcript` environment whose fetch yields XML-path (string-typed)
lines: the `end` field becomes string concatenation. -/
def envC5 : TranscriptEnv :=
  ⟨.ok "vid01", .ok infoDeTrack, fun _ _ => .ok (.strs [⟨"7.5", "2", "Hello"⟩])⟩

/-- The two-503s-then-200 model endpoint of the retry scenario. -/
def retryDemo : Nat → Except JsErr Nat :=
  fun n => if n = 3 then .ok 42 else .error ⟨"Service Unavailable", some 503⟩

/-- Primary-fetch environment where the library adapter succeeds. -/
def envC10 : PrimaryEnv :=
  ⟨.ok [⟨"hello", 0, 2⟩], .ok [], fun _ => .error ⟨"down", none⟩, fun _ => .error ⟨"down", none⟩⟩

/-- A legacy-fetch environment (library succeeds). -/
def envC10legacy : LegacyEnv :=
  ⟨.ok [⟨"hello", 0, 2⟩], .ok [], fun _ => .error ⟨"down", none⟩⟩

/-- A `fabricFetchTranscript` environment whose subprocess fails. -/
def envC8 : FabricEnv :=
  ⟨"vid01", "en", .error "yt-dlp exploded", none, none⟩

/-- `/smart-summary-firebase-v3` environment with a cached non-empty summary. -/
def envC6v3 : FirebaseV3Env :=
  ⟨"https://youtu.be/x", some "chatgpt", .ok "vid01", some ⟨some "cached summary"⟩,
   some ⟨"T", "2024-01-01", "Tech", "d", "img", 14, "cu", "au", "va", "vu", "pd", none⟩,
   true, fun _ => .ok ⟨none, none, none, some "fresh", none, none⟩⟩

/-- `/smart-summary` environment with a cached record that lacks a summary. -/
def envC6plain : SmartSummaryEnv :=
  ⟨"https://youtu.be/x", some "a transcript", some "chatgpt", .ok "vid01",
   some ⟨none⟩, .ok [⟨"line"⟩], true, .ok ⟨some "fresh", none, none, none, none, none⟩⟩

/-- Transcript metadata with a two-line description, used to exhibit the
v2 frontmatter's unindented second description line. -/
def metaC9 : TransMeta :=
  ⟨"T", "2024-01-01", "Tech", "first\nsecond", "img", 14, "cu", "au", "va", "vu", "pd", none⟩

/-- A JSON3 payload with one two-segment event at 1500ms/2000ms. -/
def json3Demo : Json3 :=
  ⟨some [⟨some [⟨some "Hi "⟩, ⟨some "there"⟩], some 1500, some 2000⟩]⟩

end YT

namespace YT

/-! ## Supporting lemmas -/

theorem jsOrNat_pos (o : Option Nat) (d : Nat) (hd : 0 < d) : 0 < jsOrNat o d := by
  cases o with
  | none => simpa [jsOrNat]
  | some n =>
    by_cases h : n = 0 <;> simp [jsOrNat, h] <;> omega

theorem retryableStatus_iff (e : JsErr) :
    retryableStatus e = true ↔ ∃ s, e.status = some s ∧ s ∈ RETRYABLE_STATUS_CODES := by
  cases hse : e.status with
  | none => simp [retryableStatus, hse]
  | some s => simp [retryableStatus, hse, List.elem_iff]

theorem retryGo_attempts_le {α : Type} (f : Nat → Except JsErr α) (maxA base : Nat) :
    ∀ (fuel attempt acc : Nat), attempt ≤ maxA →
      (retryGo f maxA base fuel attempt acc).attempts ≤ maxA := by
  intro fuel
  induction fuel with
  | zero => intro attempt acc h; simpa [retryGo] using h
  | succ n ih =>
    intro attempt acc h
    cases hf : f attempt with
    | ok v =>
      simp only [retryGo, hf]
      simpa using h
    | error e =>
      by_cases hr : retryableStatus e = true ∧ attempt ≠ maxA
      · simp only [retryGo, hf]
        rw [if_pos hr]
        exact ih (attempt + 1) _ (by omega)
      · simp only [retryGo, hf]
        rw [if_neg hr]
        simpa using h

/-! ## Claim C3 -/

/-- Claim C3: `postWithRetry` retries a failed POST only when the HTTP
response status is one of 429, 500, 502, 503, 504, waiting
`baseDelayMs * 2^(attempt-1)` before each retry and making at most
`maxAttempts` (default 3) attempts; any non-retryable status and any
non-HTTP error is raised immediately without retry; and for an endpoint
answering 503 twice then 200 it succeeds on the third attempt with
cumulative delay `baseDelay + 2*baseDelay`. -/
theorem C3_postWithRetry :
    (∀ {α : Type} (f : Nat → Except JsErr α) (v : α) (b : Nat) (e1 e2 : JsErr),
      b ≠ 0 → e1.status = some 503 → e2.status = some 503 →
      f 1 = .error e1 → f 2 = .error e2 → f 3 = .ok v →
      postWithRetry f (some 3) (some b) = ⟨.ok v, 3, b + 2 * b⟩) ∧
    (∀ {α : Type} (f : Nat → Except JsErr α) (e : JsErr) (mo bo : Option Nat),
      (e.status = none ∨ ∀ s, e.status = some s → s ∉ RETRYABLE_STATUS_CODES) →
      f 1 = .error e →
      postWithRetry f mo bo = ⟨.error e, 1, 0⟩) ∧
    (∀ {α : Type} (f : Nat → Except JsErr α) (v : α) (b : Nat) (e : JsErr) (s : Nat),
      b ≠ 0 → e.status = some s → s ∈ RETRYABLE_STATUS_CODES →
      f 1 = .error e → f 2 = .ok v →
      postWithRetry f (some 3) (some b) = ⟨.ok v, 2, b⟩) ∧
    (∀ {α : Type} (f : Nat → Except JsErr α) (mo bo : Option Nat),
      (postWithRetry f mo bo).attempts ≤ jsOrNat mo 3) := by
  refine ⟨?_, ?_, ?_, ?_⟩
  · intro α f v b e1 e2 hb h1 h2 hf1 hf2 hf3
    have hr1 : retryableStatus e1 = true := by
      rw [retryableStatus_iff]; exact ⟨503, h1, by decide⟩
    have hr2 : retryableStatus e2 = true := by
      rw [retryableStatus_iff]; exact ⟨503, h2, by decide⟩
    simp [postWithRetry, jsOrNat, hb, retryGo, hf1, hf2, hf3, hr1, hr2]
    ring
  · intro α f e mo bo he hf1
    have hr : retryableStatus e = false := by
      rcases he with h | h
      · simp [retryableStatus, h]
      · rw [Bool.eq_false_iff]
        intro hc
        obtain ⟨s, hs, hmem⟩ := (retryableStatus_iff e).mp hc
        exact h s hs hmem
    obtain ⟨k, hk⟩ : ∃ k, jsOrNat mo 3 = k + 1 := by
      have := jsOrNat_pos mo 3 (by omega)
      exact ⟨jsOrNat mo 3 - 1, by omega⟩
    simp [postWithRetry, hk, retryGo, hf1, hr]
  · intro α f v b e s hb hse hmem hf1 hf2
    have hr : retryableStatus e = true := by
      rw [retryableStatus_iff]; exact ⟨s, hse, hmem⟩
    simp [postWithRetry, jsOrNat, hb, retryGo, hf1, hf2, hr]
  · intro α f mo bo
    exact retryGo_attempts_le f _ _ _ 1 0 (jsOrNat_pos mo 3 (by omega))

/-- Witness for C3: the 503/503/200 endpoint succeeds on the third
attempt after 750 + 1500 ms of backoff. -/
theorem C3_postWithRetry_witness :
    postWithRetry retryDemo (some 3) (some 750) = ⟨.ok 42, 3, 750 + 2 * 750⟩ :=
  C3_postWithRetry.1 retryDemo 42 750 ⟨"Service Unavailable", some 503⟩
    ⟨"Service Unavailable", some 503⟩ (by decide) rfl rfl (by decide) (by decide) (by decide)

/-! ## Claim C8 -/

/-- Claim C8: `fabricFetchTranscript` creates a request-scoped temporary
directory and removes it on every exit path — whatever the subprocess,
JSON3 and VTT outcomes are, the run's effect trace contains the directory
creation, contains the cleanup, and ends with the cleanup (so the
cleanup also follows every other effect). -/
theorem C8_fabric_cleanup (env : FabricEnv) (h : env.videoID ≠ "") :
    FabEff.mkTmpDir ∈ (fabricFetchTranscript env).2 ∧
    FabEff.cleanup ∈ (fabricFetchTranscript env).2 ∧
    (fabricFetchTranscript env).2.getLast? = some FabEff.cleanup := by
  refine ⟨?_, ?_, ?_⟩
  · simp [fabricFetchTranscript, h]
  · simp [fabricFetchTranscript, tryFinallyE, h]
  · have : (fabricFetchTranscript env).2 =
        (FabEff.mkTmpDir :: (fabricBody env).2) ++ [FabEff.cleanup] := by
      simp [fabricFetchTranscript, tryFinallyE, h]
    rw [this, List.getLast?_concat]

/-- Witness for C8: a run whose subprocess fails still cleans up. -/
theorem C8_fabric_cleanup_witness :
    envC8.videoID ≠ "" ∧ FabEff.cleanup ∈ (fabricFetchTranscript envC8).2 :=
  ⟨by decide, (C8_fabric_cleanup envC8 (by decide)).2.1⟩

end YT

namespace YT

theorem primaryScrape_ok_nonEmpty (env : PrimaryEnv) (lang : String) (fl : FetchedLines)
    (h : primaryScrape env lang = .ok fl) : fl.nonEmpty := by
  simp only [primaryScrape, bind, Except.bind, pure, Except.pure] at h
  split at h
  · exact absurd h (by simp)
  · split at h
    · exact absurd h (by simp)
    · split at h
      · split at h
        · exact absurd h (by simp)
        · split at h
          · split at h
            · split at h
              · cases h
                simpa [FetchedLines.nonEmpty] using by assumption
              · exact absurd h (by simp)
            · exact absurd h (by simp)
          · cases h
            simp_all [FetchedLines.nonEmpty]
      · exact absurd h (by simp)

theorem legacyScrape_ok_nonEmpty (env : LegacyEnv) (lang : String) (fl : FetchedLines)
    (h : legacyScrape env lang = .ok fl) : fl.nonEmpty := by
  simp only [legacyScrape, bind, Except.bind, pure, Except.pure] at h
  split at h
  · exact absurd h (by simp)
  · split at h
    · exact absurd h (by simp)
    · split at h
      · exact absurd h (by simp)
      · split at h
        · exact absurd h (by simp)
        · split at h
          · exact absurd h (by simp)
          · cases h
            simp_all [FetchedLines.nonEmpty]

/-- Claim C10: whenever `fetchTranscript` (or either of its variants
`fetchTranscriptPrimary` and `fetchTranscriptLegacy`) returns
successfully, the returned caption-line sequence is non-empty: an empty
library result, an empty XML parse and an empty JSON3 parse are each
converted into a thrown error on every path. -/
theorem C10_fetch_nonempty :
    (∀ (env : PrimaryEnv) (lang : String) (fl : FetchedLines),
      fetchTranscriptPrimary env lang = .ok fl → fl.nonEmpty) ∧
    (∀ (env : LegacyEnv) (lang : String) (fl : FetchedLines),
      fetchTranscriptLegacy env lang = .ok fl → fl.nonEmpty) ∧
    (∀ (envP : PrimaryEnv) (envL : LegacyEnv) (lang : String) (fl : FetchedLines),
      fetchTranscript envP envL lang = .ok fl → fl.nonEmpty) := by
  have hp : ∀ (env : PrimaryEnv) (lang : String) (fl : FetchedLines),
      fetchTranscriptPrimary env lang = .ok fl → fl.nonEmpty := by
    intro env lang fl h
    unfold fetchTranscriptPrimary at h
    split at h
    · split at h
      · exact primaryScrape_ok_nonEmpty env lang fl h
      · cases h
        simp_all [FetchedLines.nonEmpty]
    · exact primaryScrape_ok_nonEmpty env lang fl h
  have hl : ∀ (env : LegacyEnv) (lang : String) (fl : FetchedLines),
      fetchTranscriptLegacy env lang = .ok fl → fl.nonEmpty := by
    intro env lang fl h
    unfold fetchTranscriptLegacy at h
    split at h
    · split at h
      · exact legacyScrape_ok_nonEmpty env lang fl h
      · cases h
        simp_all [FetchedLines.nonEmpty]
    · split at h
      · exact legacyScrape_ok_nonEmpty env lang fl h
      · exact absurd h (by simp)
  refine ⟨hp, hl, ?_⟩
  intro envP envL lang fl h
  unfold fetchTranscript at h
  split at h
  · cases h
    exact hp envP lang _ (by assumption)
  · exact hl envL lang fl h

/-- Witness for C10: a successful library fetch yields a non-empty line
sequence. -/
theorem C10_fetch_nonempty_witness :
    fetchTranscript envC10 envC10legacy "en" = .ok (.nums [⟨0, 2, "hello"⟩]) ∧
    FetchedLines.nonEmpty (.nums [⟨0, 2, "hello"⟩]) :=
  ⟨by decide, C10_fetch_nonempty.2.2 envC10 envC10legacy "en" _ (by decide)⟩

end YT

namespace YT

/-- Claim C6: for every summary endpoint, a stored record with a
non-empty `summary` is the sole cache-hit signal — such a request returns
the cached summary with `fromCache: true` and an empty effect trace (in
particular no model call); and a record lacking a non-empty summary makes
the handler behave exactly as if no record existed. -/
theorem C6_summary_cache :
    (∀ (env : SmartSummaryEnv) (vid s : String), s ≠ "" → env.url ≠ "" →
      env.videoID = .ok vid → env.summariesDoc = some ⟨some s⟩ →
      smartSummaryHandler env = (⟨200, "", none, none, none, some s, some true⟩, [])) ∧
    (∀ (env : SmartSummaryEnv) (r : SummaryRecord),
      r.summary = none ∨ r.summary = some "" →
      smartSummaryHandler {env with summariesDoc := some r} =
        smartSummaryHandler {env with summariesDoc := none}) ∧
    (∀ (env : FirebaseSummaryEnv) (vid s : String), s ≠ "" → env.url ≠ "" →
      env.videoID = .ok vid → env.summariesDoc = some ⟨some s⟩ →
      smartSummaryFirebaseHandler env = (⟨200, "", none, none, none, some s, some true⟩, [])) ∧
    (∀ (env : FirebaseSummaryEnv) (r : SummaryRecord),
      r.summary = none ∨ r.summary = some "" →
      smartSummaryFirebaseHandler {env with summariesDoc := some r} =
        smartSummaryFirebaseHandler {env with summariesDoc := none}) ∧
    (∀ (env : FirebaseV2Env) (vid s : String), s ≠ "" → env.url ≠ "" →
      env.videoID = .ok vid → env.summariesDoc = some ⟨some s⟩ →
      smartSummaryFirebaseV2Handler env = (⟨200, "", none, none, none, some s, some true⟩, [])) ∧
    (∀ (env : FirebaseV2Env) (r : SummaryRecord),
      r.summary = none ∨ r.summary = some "" →
      smartSummaryFirebaseV2Handler {env with summariesDoc := some r} =
        smartSummaryFirebaseV2Handler {env with summariesDoc := none}) ∧
    (∀ (env : FirebaseV3Env) (vid s : String), s ≠ "" → env.url ≠ "" →
      truthyOpt env.model = true → env.videoID = .ok vid → env.summariesDoc = some ⟨some s⟩ →
      smartSummaryFirebaseV3Handler env = (⟨200, "", none, none, none, some s, some true⟩, [])) ∧
    (∀ (env : FirebaseV3Env) (r : SummaryRecord),
      r.summary = none ∨ r.summary = some "" →
      smartSummaryFirebaseV3Handler {env with summariesDoc := some r} =
        smartSummaryFirebaseV3Handler {env with summariesDoc := none}) := by
  refine ⟨?_, ?_, ?_, ?_, ?_, ?_, ?_, ?_⟩
  · intro env vid s hs hu hv hd
    simp [smartSummaryHandler, hu, hv, hd, truthyOpt, hs]
  · intro env r hr
    rcases hr with h | h <;>
      simp [smartSummaryHandler, h, truthyOpt] <;>
      (try split) <;> simp [smartSummaryRegen]
  · intro env vid s hs hu hv hd
    simp [smartSummaryFirebaseHandler, hu, hv, hd, truthyOpt, hs]
  · intro env r hr
    rcases hr with h | h <;>
      simp [smartSummaryFirebaseHandler, h, truthyOpt] <;>
      (try split) <;> simp [smartSummaryFirebaseRegen]
  · intro env vid s hs hu hv hd
    simp [smartSummaryFirebaseV2Handler, hu, hv, hd, truthyOpt, hs]
  · intro env r hr
    rcases hr with h | h <;>
      simp [smartSummaryFirebaseV2Handler, h, truthyOpt] <;>
      (try split) <;> simp [smartSummaryFirebaseV2Regen]
  · intro env vid s hs hu hm hv hd
    have h2 : truthyOpt (some s) = true := by simp [truthyOpt, hs]
    simp [smartSummaryFirebaseV3Handler, hu, hm, hv, hd, h2]
  · intro env r hr
    rcases hr with h | h <;>
      simp [smartSummaryFirebaseV3Handler, h, truthyOpt] <;>
      (try split) <;> simp [smartSummaryFirebaseV3Regen]

/-- Witness for C6: a cached v3 summary is served without effects, and a
record with `summary` absent regenerates exactly like a missing record. -/
theorem C6_summary_cache_witness :
    smartSummaryFirebaseV3Handler envC6v3 =
      (⟨200, "", none, none, none, some "cached summary", some true⟩, []) ∧
    smartSummaryHandler {envC6plain with summariesDoc := some ⟨none⟩} =
      smartSummaryHandler {envC6plain with summariesDoc := none} :=
  ⟨C6_summary_cache.2.2.2.2.2.2.1 envC6v3 "vid01" "cached summary" (by decide) (by decide)
      (by decide) rfl rfl,
   C6_summary_cache.2.1 envC6plain ⟨none⟩ (Or.inl rfl)⟩

end YT

namespace YT

theorem mem_insertDesc (x p : String × Nat) (l : List (String × Nat)) :
    p ∈ insertDesc x l ↔ p = x ∨ p ∈ l := by
  induction l with
  | nil => simp [insertDesc]
  | cons h t ih =>
    by_cases hc : x.2 < h.2
    · simp [insertDesc, hc, ih]
      tauto
    · simp [insertDesc, hc]

theorem mem_sortDesc (p : String × Nat) (l : List (String × Nat)) :
    p ∈ sortDesc l ↔ p ∈ l := by
  induction l with
  | nil => simp [sortDesc]
  | cons h t ih => simp [sortDesc, mem_insertDesc, ih]

theorem insertDesc_pairwise (x : String × Nat) (l : List (String × Nat))
    (hl : l.Pairwise (fun a b => b.2 ≤ a.2)) :
    (insertDesc x l).Pairwise (fun a b => b.2 ≤ a.2) := by
  induction l with
  | nil => simp [insertDesc]
  | cons h t ih =>
    rcases List.pairwise_cons.mp hl with ⟨hh, ht⟩
    by_cases hc : x.2 < h.2
    · rw [insertDesc, if_pos hc]
      refine List.pairwise_cons.mpr ⟨?_, ih ht⟩
      intro y hy
      rcases (mem_insertDesc x y t).mp hy with rfl | hyt
      · omega
      · exact hh y hyt
    · rw [insertDesc, if_neg hc]
      refine List.pairwise_cons.mpr ⟨?_, hl⟩
      intro y hy
      rcases hy with _ | hyt
      · omega
      · have := hh y (by assumption)
        omega

theorem sortDesc_pairwise (l : List (String × Nat)) :
    (sortDesc l).Pairwise (fun a b => b.2 ≤ a.2) := by
  induction l with
  | nil => simp [sortDesc]
  | cons h t ih => exact insertDesc_pairwise h (sortDesc t) ih

theorem filter_insertDesc_eqkey (x : String × Nat) (c : Nat) (l : List (String × Nat))
    (hx : x.2 = c) :
    (insertDesc x l).filter (fun p => p.2 == c) = x :: l.filter (fun p => p.2 == c) := by
  induction l with
  | nil => simp [insertDesc, hx]
  | cons h t ih =>
    by_cases hc : x.2 < h.2
    · have hh : (h.2 == c) = false := by
        simp only [beq_eq_false_iff_ne, ne_eq]
        omega
      rw [insertDesc, if_pos hc]
      simp only [List.filter_cons, hh, ih]
      simp
    · rw [insertDesc, if_neg hc]
      simp [List.filter_cons, hx]

theorem filter_insertDesc_nekey (x : String × Nat) (c : Nat) (l : List (String × Nat))
    (hx : x.2 ≠ c) :
    (insertDesc x l).filter (fun p => p.2 == c) = l.filter (fun p => p.2 == c) := by
  induction l with
  | nil => simp [insertDesc, hx]
  | cons h t ih =>
    by_cases hc : x.2 < h.2
    · rw [insertDesc, if_pos hc]
      simp only [List.filter_cons, ih]
    · rw [insertDesc, if_neg hc]
      simp [List.filter_cons, hx]

theorem filter_sortDesc (c : Nat) (l : List (String × Nat)) :
    (sortDesc l).filter (fun p => p.2 == c) = l.filter (fun p => p.2 == c) := by
  induction l with
  | nil => simp [sortDesc]
  | cons h t ih =>
    by_cases hc : h.2 = c
    · rw [sortDesc, filter_insertDesc_eqkey h c (sortDesc t) hc, ih]
      simp [List.filter_cons, hc]
    · rw [sortDesc, filter_insertDesc_nekey h c (sortDesc t) hc, ih]
      simp [List.filter_cons, hc]

theorem key_mem_bumpCount (acc : List (String × Nat)) (w : String) (p : String × Nat)
    (h : p ∈ bumpCount acc w) : p.1 = w ∨ p.1 ∈ acc.map (fun q => q.1) := by
  unfold bumpCount at h
  split at h
  · rcases List.mem_map.mp h with ⟨q, hq, hpq⟩
    right
    by_cases hqw : q.1 = w <;> simp [hqw] at hpq <;>
      exact hpq ▸ List.mem_map.mpr ⟨q, hq, by simp [hqw]⟩
  · rcases List.mem_append.mp h with hacc | hw
    · exact Or.inr (List.mem_map.mpr ⟨p, hacc, rfl⟩)
    · simp at hw
      simp [hw]

theorem key_mem_countAux (ws : List String) :
    ∀ (acc : List (String × Nat)) (p : String × Nat), p ∈ List.foldl bumpCount acc ws →
      p.1 ∈ acc.map (fun q => q.1) ∨ p.1 ∈ ws := by
  induction ws with
  | nil => intro acc p h; simp at h; exact Or.inl (List.mem_map.mpr ⟨p, h, rfl⟩)
  | cons w ws ih =>
    intro acc p h
    rw [List.foldl_cons] at h
    rcases ih (bumpCount acc w) p h with hk | hws
    · rcases List.mem_map.mp hk with ⟨q, hq, hpq⟩
      rcases key_mem_bumpCount acc w q hq with hqw | hqa
      · exact Or.inr (by simp [← hpq, hqw])
      · exact Or.inl (hpq ▸ hqa)
    · exact Or.inr (List.mem_cons_of_mem w hws)

/-- Claim C7: the derived tag list of `buildTagsFromText` contains at
most 10 entries, no stopword, no word shorter than 4 characters, and the
entry list it is cut from is ordered by descending occurrence count with
ties kept in first-encountered (insertion) order — expressed by the
pairwise-descending property together with stability: for every count
class, the sorted order restricted to that class equals the insertion
order of the count map. -/
theorem C7_buildTags (text : String) :
    (buildTagsFromText text).length ≤ 10 ∧
    (∀ w ∈ buildTagsFromText text, 4 ≤ w.length ∧ w ∉ stopwords) ∧
    (sortedTagEntries text).Pairwise (fun a b => b.2 ≤ a.2) ∧
    (∀ c : Nat, (sortedTagEntries text).filter (fun p => p.2 == c) =
      (countWords (tagWords text)).filter (fun p => p.2 == c)) ∧
    buildTagsFromText text = ((sortedTagEntries text).take 10).map (fun p => p.1) := by
  refine ⟨?_, ?_, sortDesc_pairwise _, fun c => filter_sortDesc c _, rfl⟩
  · calc (buildTagsFromText text).length
        = ((sortedTagEntries text).take 10).length := by simp [buildTagsFromText]
      _ ≤ 10 := List.length_take_le 10 _
  · intro w hw
    rcases List.mem_map.mp hw with ⟨p, hp, hpw⟩
    have hps : p ∈ sortedTagEntries text := List.mem_of_mem_take hp
    have hpc : p ∈ countWords (tagWords text) := (mem_sortDesc p _).mp hps
    have hkey : p.1 ∈ tagWords text := by
      rcases key_mem_countAux (tagWords text) [] p hpc with hk | hk
      · simp at hk
      · exact hk
    have := List.mem_filter.mp hkey
    rw [← hpw]
    constructor
    · have h2 := this.2
      simp at h2
      exact h2.1
    · have h2 := this.2
      simp at h2
      exact h2.2

/-- Witness for C7 at a concrete text with repeated words and ties. -/
theorem C7_buildTags_witness :
    buildTagsFromText "Alpha alpha beta gamma gamma the with delta-one beta zeta" =
      ["alpha", "beta", "gamma", "delta-one", "zeta"] ∧
    (∀ w ∈ buildTagsFromText "Alpha alpha beta gamma gamma the with delta-one beta zeta",
      4 ≤ w.length ∧ w ∉ stopwords) :=
  ⟨by decide,
   (C7_buildTags "Alpha alpha beta gamma gamma the with delta-one beta zeta").2.1⟩

end YT

namespace YT

theorem findAttrNum_some (pat : List Char) : ∀ (l r : List Char),
    findAttrNum pat l = some r →
    r ≠ [] ∧ ∀ c ∈ r, c.isDigit ∨ c = '.' := by
  intro l
  induction l with
  | nil => intro r h; simp [findAttrNum] at h
  | cons x xs ih =>
    intro r h
    simp only [findAttrNum] at h
    split at h
    · split at h
      · rename_i hcond
        cases h
        constructor
        · intro he
          simp [he] at hcond
        · intro c hc
          have := List.mem_takeWhile_imp hc
          simpa using this
      · exact ih r h
    · exact ih r h

theorem exceptMap_ok_mem {α β : Type} (f : α → Except JsErr β) : ∀ (xs : List α)
    (ys : List β), exceptMap f xs = .ok ys →
    ∀ y ∈ ys, ∃ x ∈ xs, f x = .ok y := by
  intro xs
  induction xs with
  | nil =>
    intro ys h
    simp only [exceptMap] at h
    cases h
    simp
  | cons x xs ih =>
    intro ys h
    simp only [exceptMap, bind, Except.bind, pure, Except.pure] at h
    split at h
    · exact absurd h (by simp)
    · rename_i y hy
      split at h
      · exact absurd h (by simp)
      · rename_i ys' hys
        cases h
        intro z hz
        rcases hz with _ | hz'
        · exact ⟨x, by simp, hy⟩
        · rcases ih ys' hys z (by assumption) with ⟨x', hx', hfx'⟩
          exact ⟨x', by simp [hx'], hfx'⟩

theorem parseXmlChunk_ok (chunk : List Char) (l : XmlLine)
    (h : parseXmlChunk chunk = .ok l) :
    (l.start ≠ "" ∧ ∀ c ∈ l.start.data, c.isDigit ∨ c = '.') ∧
    (l.dur ≠ "" ∧ ∀ c ∈ l.dur.data, c.isDigit ∨ c = '.') := by
  simp only [parseXmlChunk, bind, Except.bind, pure, Except.pure, jsAccess] at h
  cases hs : findAttrNum "start=\"".data chunk with
  | none => rw [hs] at h; simp at h
  | some rs =>
    rw [hs] at h
    cases hd : findAttrNum "dur=\"".data chunk with
    | none => rw [hd] at h; simp at h
    | some rd =>
      rw [hd] at h
      simp only [Except.ok.injEq] at h
      have hrs := findAttrNum_some _ chunk rs hs
      have hrd := findAttrNum_some _ chunk rd hd
      rw [← h]
      refine ⟨⟨?_, hrs.2⟩, ⟨?_, hrd.2⟩⟩
      · intro he
        exact hrs.1 (by simpa [String.ext_iff] using he)
      · intro he
        exact hrd.1 (by simpa [String.ext_iff] using he)

/-- Claim C4 (amended): every line the JSON3 parser produces has
non-negative start/duration (given non-negative millisecond inputs)
obtained by exact division by 1000 — not truncation — and non-empty
trimmed text; the legacy-XML parser's `start`/`dur` are non-empty
digit-and-dot numeral *strings* (hence denote non-negative values), but
it does **not** drop lines whose extracted text is empty. -/
theorem C4_caption_lines_amended :
    (∀ (j : Json3),
      (∀ e ∈ j.events.getD [], 0 ≤ e.tStartMs.getD 0 ∧ 0 ≤ e.dDurationMs.getD 0) →
      ∀ l ∈ parseTranscriptJson3 j,
        0 ≤ l.start ∧ 0 ≤ l.dur ∧ l.text ≠ "" ∧
        ∃ e ∈ j.events.getD [],
          l.start = ((e.tStartMs.getD 0 : Int) : ℚ) / 1000 ∧
          l.dur = ((e.dDurationMs.getD 0 : Int) : ℚ) / 1000 ∧
          l.start * 1000 = ((e.tStartMs.getD 0 : Int) : ℚ) ∧
          l.dur * 1000 = ((e.dDurationMs.getD 0 : Int) : ℚ)) ∧
    (∀ (xml : String) (lines : List XmlLine), parseTranscriptXml xml = .ok lines →
      ∀ l ∈ lines,
        (l.start ≠ "" ∧ ∀ c ∈ l.start.data, c.isDigit ∨ c = '.') ∧
        (l.dur ≠ "" ∧ ∀ c ∈ l.dur.data, c.isDigit ∨ c = '.')) := by
  constructor
  · intro j hj l hl
    rcases List.mem_filter.mp hl with ⟨hmap, htext⟩
    rcases List.mem_map.mp hmap with ⟨e, hef, hfe⟩
    have hev : e ∈ j.events.getD [] := (List.mem_filter.mp hef).1
    rcases hj e hev with ⟨hts, hds⟩
    have hstart : l.start = ((e.tStartMs.getD 0 : Int) : ℚ) / 1000 := by
      rw [← hfe]
    have hdur : l.dur = ((e.dDurationMs.getD 0 : Int) : ℚ) / 1000 := by
      rw [← hfe]
    refine ⟨?_, ?_, by simpa using htext, e, hev, hstart, hdur, ?_, ?_⟩
    · rw [hstart]
      exact div_nonneg (by exact_mod_cast hts) (by norm_num)
    · rw [hdur]
      exact div_nonneg (by exact_mod_cast hds) (by norm_num)
    · rw [hstart, div_mul_cancel₀ _ (by norm_num : (1000 : ℚ) ≠ 0)]
    · rw [hdur, div_mul_cancel₀ _ (by norm_num : (1000 : ℚ) ≠ 0)]
  · intro xml lines h l hl
    unfold parseTranscriptXml at h
    rcases exceptMap_ok_mem _ _ _ h l hl with ⟨chunk, _, hchunk⟩
    exact parseXmlChunk_ok chunk l hchunk

/-- Counterexample to claim C4 as stated: `parseTranscriptXml` surfaces a
caption line whose text is empty (its chunk filter tests the raw markup,
not the extracted text), so empty-text lines are *not* dropped by every
caption parser. -/
theorem C4_counterexample :
    parseTranscriptXml xmlEmptyText = .ok [⟨"0", "1", ""⟩] ∧ jsTrim "" = "" :=
  ⟨by decide, by decide⟩

/-- Witness for the amended C4 on a concrete JSON3 payload. -/
theorem C4_caption_lines_amended_witness :
    0 ≤ (NumLine.mk (3 / 2) 2 "Hi there").start ∧
    0 ≤ (NumLine.mk (3 / 2) 2 "Hi there").dur ∧
    (NumLine.mk (3 / 2) 2 "Hi there").text ≠ "" ∧
    ∃ e ∈ json3Demo.events.getD [],
      (NumLine.mk (3 / 2) 2 "Hi there").start = ((e.tStartMs.getD 0 : Int) : ℚ) / 1000 ∧
      (NumLine.mk (3 / 2) 2 "Hi there").dur = ((e.dDurationMs.getD 0 : Int) : ℚ) / 1000 ∧
      (NumLine.mk (3 / 2) 2 "Hi there").start * 1000 = ((e.tStartMs.getD 0 : Int) : ℚ) ∧
      (NumLine.mk (3 / 2) 2 "Hi there").dur * 1000 = ((e.dDurationMs.getD 0 : Int) : ℚ) := by
  have hp : parseTranscriptJson3 json3Demo = [⟨3 / 2, 2, "Hi there"⟩] := by
    norm_num [parseTranscriptJson3, json3Demo, jsTrim, trimChars, String.join]
    rfl
  exact C4_caption_lines_amended.1 json3Demo (by decide) ⟨3 / 2, 2, "Hi there"⟩
    (by rw [hp]; exact List.mem_singleton.mpr rfl)

end YT

namespace YT

/-- Claim C5 (amended): the `/transcript` response computes each line's
`end` with JS `+` on `item.start` and `item.dur`: it is the numeric sum
`start + duration` when the fetched lines carry numbers (library and
JSON3 paths), but *string concatenation* when they carry the XML parser's
capture strings; the handler exposes exactly this mapping of the fetched
lines. -/
theorem C5_end_field_amended :
    (∀ (l : List NumLine), ∀ e ∈ customLines (.nums l),
      ∃ i ∈ l, e.start = .num i.start ∧ e.endVal = .num (i.start + i.dur) ∧ e.text = i.text) ∧
    (∀ (l : List XmlLine), ∀ e ∈ customLines (.strs l),
      ∃ i ∈ l, e.start = .str i.start ∧ e.endVal = .str (i.start ++ i.dur) ∧ e.text = i.text) ∧
    (∀ (env : TranscriptEnv) (vid : String) (info : VideoInfo) (t0 : CaptionTrack)
      (rest : List CaptionTrack) (fl : FetchedLines),
      env.videoID = .ok vid → vid ≠ "" → env.videoInfo = .ok info →
      chainTracks info = some (t0 :: rest) →
      env.fetchLines vid t0.languageCode = .ok fl →
      transcriptHandler env = ⟨200, "success", none, none, some (customLines fl), none, none⟩) := by
  refine ⟨?_, ?_, ?_⟩
  · intro l e he
    rcases List.mem_map.mp he with ⟨i, hi, hie⟩
    exact ⟨i, hi, by simp [← hie], by simp [← hie], by simp [← hie]⟩
  · intro l e he
    rcases List.mem_map.mp he with ⟨i, hi, hie⟩
    exact ⟨i, hi, by simp [← hie], by simp [← hie], by simp [← hie]⟩
  · intro env vid info t0 rest fl hv hvne hinfo hchain hfetch
    obtain ⟨renderer, hrend, htr⟩ :
        ∃ r, (info.player_response.bind (fun p => p.captions)).bind
          (fun c => c.playerCaptionsTracklistRenderer) = some r ∧
          r.captionTracks = some (t0 :: rest) := by
      cases h1 : (info.player_response.bind (fun p => p.captions)).bind
          (fun c => c.playerCaptionsTracklistRenderer) with
      | none => rw [chainTracks, h1] at hchain; simp at hchain
      | some r =>
        refine ⟨r, rfl, ?_⟩
        rw [chainTracks, h1] at hchain
        simpa using hchain
    simp [transcriptHandler, transcriptBody, hv, hvne, hinfo, hrend, htr, hfetch,
      bind, Except.bind, pure, Except.pure]

/-- Counterexample to claim C5 as stated: with XML-path lines
(`start="7.5"`, `dur="2"`) the `/transcript` response's `end` field is
the concatenation `"7.52"`, not the numeric sum `9.5`. -/
theorem C5_counterexample :
    transcriptHandler envC5 =
      ⟨200, "success", none, none,
        some [⟨.str "7.5", .str "7.52", "Hello"⟩], none, none⟩ ∧
    JsVal.str "7.52" ≠ JsVal.num (19 / 2) :=
  ⟨by decide, by decide⟩

/-- Witness for the amended C5: the same run, read through the amended
statement's handler conjunct. -/
theorem C5_end_field_amended_witness :
    transcriptHandler envC5 =
      ⟨200, "success", none, none,
        some (customLines (.strs [⟨"7.5", "2", "Hello"⟩])), none, none⟩ :=
  C5_end_field_amended.2.2 envC5 "vid01" infoDeTrack
    ⟨"de", "German", none, "https://yt.example/de"⟩ [] (.strs [⟨"7.5", "2", "Hello"⟩])
    rfl (by decide) rfl (by decide) (by decide)

end YT

namespace YT

theorem splitChar_ne_nil (c : Char) (l : List Char) : splitChar c l ≠ [] := by
  induction l with
  | nil => simp [splitChar]
  | cons x xs ih =>
    rw [splitChar]
    split
    · simp
    · split <;> simp

theorem not_mem_of_mem_splitChar (c : Char) : ∀ (l : List Char), ∀ p ∈ splitChar c l, c ∉ p := by
  intro l
  induction l with
  | nil => intro p hp; simp [splitChar] at hp; simp [hp]
  | cons x xs ih =>
    intro p hp
    rw [splitChar] at hp
    rcases hsp : splitChar c xs with _ | ⟨h, t⟩
    · exact absurd hsp (splitChar_ne_nil c xs)
    · rw [hsp] at hp
      by_cases hxc : x = c
      · simp [hxc] at hp
        rcases hp with rfl | rfl | hp'
        · simp
        · exact ih p (by rw [hsp]; simp)
        · exact ih p (by rw [hsp]; simp [hp'])
      · simp [hxc] at hp
        rcases hp with rfl | hp'
        · intro hmem
          rcases List.mem_cons.mp hmem with hch | hch
          · exact hxc hch.symm
          · exact ih h (by rw [hsp]; simp) hch
        · exact ih p (by rw [hsp]; simp [hp'])

theorem splitChar_no_sep (c : Char) : ∀ (p : List Char), c ∉ p → splitChar c p = [p] := by
  intro p
  induction p with
  | nil => intro _; rfl
  | cons x xs ih =>
    intro h
    have hx : ¬ (x = c) := fun he => h (by simp [he])
    have hxs : c ∉ xs := fun hc => h (by simp [hc])
    rw [splitChar, ih hxs]
    simp [hx]

theorem splitChar_append (c : Char) : ∀ (p rest : List Char), c ∉ p →
    splitChar c (p ++ c :: rest) = p :: splitChar c rest := by
  intro p
  induction p with
  | nil =>
    intro rest _
    rcases hsp : splitChar c rest with _ | ⟨h, t⟩
    · exact absurd hsp (splitChar_ne_nil c rest)
    · simp [splitChar, hsp]
  | cons x xs ih =>
    intro rest h
    have hx : ¬ (x = c) := fun he => h (by simp [he])
    have hxs : c ∉ xs := fun hc => h (by simp [hc])
    rw [List.cons_append, splitChar, ih rest hxs]
    simp [hx]

theorem intercalate_char_cons (c : Char) (p q : List Char) (qs : List (List Char)) :
    intercalateChar c (p :: q :: qs) = p ++ c :: intercalateChar c (q :: qs) := by
  simp [intercalateChar, List.intercalate, List.intersperse]

theorem splitChar_intercalate (c : Char) : ∀ (parts : List (List Char)), parts ≠ [] →
    (∀ p ∈ parts, c ∉ p) → splitChar c (intercalateChar c parts) = parts := by
  intro parts
  induction parts with
  | nil => intro h; exact absurd rfl h
  | cons p ps ih =>
    intro _ hmem
    rcases ps with _ | ⟨q, qs⟩
    · have : intercalateChar c [p] = p := by simp [intercalateChar, List.intercalate]
      rw [this]
      exact splitChar_no_sep c p (hmem p (by simp))
    · rw [intercalate_char_cons, splitChar_append c p _ (hmem p (by simp)),
        ih (by simp) (fun r hr => hmem r (by simp [hr]))]

/-- Claim C9 (amended): the v3 composer's `yamlSafeDescription` is a
block scalar whose body is the description with CRLF pairs replaced by
LF, split on LF, and every resulting line prefixed with exactly two
spaces; the v2 composer, by contrast, indents only the first description
line and applies no newline normalization (see the counterexample). -/
theorem C9_frontmatter_amended (raw : String) :
    (yamlSafeDescription raw).data =
      '|' :: '\n' :: intercalateChar '\n'
        ((splitChar '\n' (replaceCrlfL raw.data)).map (fun l => ' ' :: ' ' :: l)) ∧
    splitChar '\n' ((yamlSafeDescription raw).data.drop 2) =
      (splitChar '\n' (replaceCrlfL raw.data)).map (fun l => ' ' :: ' ' :: l) ∧
    ∀ p ∈ splitChar '\n' ((yamlSafeDescription raw).data.drop 2), p.take 2 = [' ', ' '] := by
  have h1 : (yamlSafeDescription raw).data =
      '|' :: '\n' :: intercalateChar '\n'
        ((splitChar '\n' (replaceCrlfL raw.data)).map (fun l => ' ' :: ' ' :: l)) := rfl
  have hne : (splitChar '\n' (replaceCrlfL raw.data)).map (fun l => ' ' :: ' ' :: l) ≠ [] := by
    intro h
    exact splitChar_ne_nil '\n' (replaceCrlfL raw.data) (List.map_eq_nil_iff.mp h)
  have hnomem : ∀ p ∈ (splitChar '\n' (replaceCrlfL raw.data)).map (fun l => ' ' :: ' ' :: l),
      ('\n') ∉ p := by
    intro p hp
    rcases List.mem_map.mp hp with ⟨l, hl, rfl⟩
    intro hm
    rcases List.mem_cons.mp hm with hc | hm'
    · exact absurd hc (by decide)
    · rcases List.mem_cons.mp hm' with hc | hm''
      · exact absurd hc (by decide)
      · exact not_mem_of_mem_splitChar '\n' (replaceCrlfL raw.data) l hl hm''
  have h2 : splitChar '\n' ((yamlSafeDescription raw).data.drop 2) =
      (splitChar '\n' (replaceCrlfL raw.data)).map (fun l => ' ' :: ' ' :: l) := by
    rw [h1]
    simpa using splitChar_intercalate '\n' _ hne hnomem
  refine ⟨h1, h2, ?_⟩
  intro p hp
  rw [h2] at hp
  rcases List.mem_map.mp hp with ⟨l, _, rfl⟩
  rfl

set_option maxRecDepth 4096 in
/-- Counterexample to claim C9 as stated: the v2 composer
(`/smart-summary-firebase-v2`, also cited by the claim) leaves the second
description line unindented, and leaves a CR from a CRLF pair in place. -/
theorem C9_counterexample :
    "second".data ∈ splitChar '\n' (frontmatterV2 metaC9 ["x"] "vid").data ∧
    "second".data.take 2 ≠ [' ', ' '] ∧
    '\r' ∈ (frontmatterV2 ⟨"T", "d", "c", "a\r\nb", "i", 1, "cu", "au", "va", "vu", "pd",
      none⟩ ["x"] "vid").data :=
  ⟨by decide, by decide, by decide⟩

end YT

namespace YT

theorem chainTracks_some (info : VideoInfo) (tl : List CaptionTrack)
    (h : chainTracks info = some tl) :
    ∃ pr cs r, info.player_response = some pr ∧ pr.captions = some cs ∧
      cs.playerCaptionsTracklistRenderer = some r ∧ r.captionTracks = some tl := by
  cases hpr : info.player_response with
  | none => rw [chainTracks, hpr] at h; simp at h
  | some pr =>
    cases hcs : pr.captions with
    | none => rw [chainTracks, hpr] at h; simp [hcs] at h
    | some cs =>
      cases hr : cs.playerCaptionsTracklistRenderer with
      | none => rw [chainTracks, hpr] at h; simp [hcs, hr] at h
      | some r =>
        rw [chainTracks, hpr] at h
        simp [hcs, hr] at h
        exact ⟨pr, cs, r, by simp [hpr], by simp [hcs], by simp [hr], h⟩

theorem preferredTrack_spec (tracks : List CaptionTrack) (t0 : CaptionTrack) :
    (preferredTrack tracks t0 ∈ tracks ∧ isNonAsrEn (preferredTrack tracks t0)) ∨
    ((∀ t ∈ tracks, ¬ isNonAsrEn t) ∧ preferredTrack tracks t0 ∈ tracks ∧
      isEn (preferredTrack tracks t0)) ∨
    ((∀ t ∈ tracks, ¬ isEn t) ∧ preferredTrack tracks t0 = t0) := by
  unfold preferredTrack
  cases hfa : tracks.find? isNonAsrEn with
  | some t =>
    simp only [hfa, Option.some_orElse, Option.getD_some]
    exact Or.inl ⟨List.mem_of_find?_eq_some hfa, List.find?_some hfa⟩
  | none =>
    cases hfe : tracks.find? isEn with
    | some t =>
      simp only [hfa, Option.none_orElse, hfe, Option.getD_some]
      refine Or.inr (Or.inl ⟨?_, List.mem_of_find?_eq_some hfe, List.find?_some hfe⟩)
      intro t' ht'
      simpa using List.find?_eq_none.mp hfa t' ht'
    | none =>
      simp only [hfa, Option.none_orElse, hfe, Option.getD_none]
      refine Or.inr (Or.inr ⟨?_, by simp⟩)
      intro t' ht'
      simpa using List.find?_eq_none.mp hfe t' ht'

/-- Claim C2 (amended): at `/simple-transcript-v3` (uncached) an
explicitly requested language must exactly match an available track's
code — otherwise the request 404s with the per-language message — and
with no language requested the handler serves the preferred track
(first non-auto-generated English, else first English, else the first
track).  However, `/simple-transcript-v2`'s explicit-language path always
fails with a 500 (it evaluates the undeclared variable `languageCode`),
and the manual-scrape fallback of `fetchTranscriptPrimary` silently
substitutes the first track when the requested language has no exact
match. -/
theorem C2_language_selection_amended :
    (∀ (env : SimpleV3Env) (vid lg : String) (info : VideoInfo) (t0 : CaptionTrack)
      (rest : List CaptionTrack),
      env.lang = some lg → lg ≠ "" → env.videoID = .ok vid → env.cachedDoc = none →
      env.safeInfo = .ok (some info) → chainTracks info = some (t0 :: rest) →
      (t0 :: rest).find? (fun t => t.languageCode = lg) = none →
      simpleTranscriptV3Handler env =
        Res.err 404 ("No captions available in the requested language (" ++ lg ++ ").")) ∧
    (∀ (env : SimpleV3Env) (vid lg tx : String) (info : VideoInfo) (t0 : CaptionTrack)
      (rest : List CaptionTrack) (tm : CaptionTrack),
      env.lang = some lg → lg ≠ "" → env.videoID = .ok vid → env.cachedDoc = none →
      env.safeInfo = .ok (some info) → chainTracks info = some (t0 :: rest) →
      (t0 :: rest).find? (fun t => t.languageCode = lg) = some tm →
      env.fabric vid lg = .ok tx →
      simpleTranscriptV3Handler env = ⟨200, "", some tx, some lg, none, none, none⟩) ∧
    (∀ (env : SimpleV3Env) (vid tx : String) (info : VideoInfo) (t0 : CaptionTrack)
      (rest : List CaptionTrack),
      env.lang = none → env.videoID = .ok vid → env.cachedDoc = none →
      env.safeInfo = .ok (some info) → chainTracks info = some (t0 :: rest) →
      env.fabric vid (preferredTrack (t0 :: rest) t0).languageCode = .ok tx →
      simpleTranscriptV3Handler env =
        ⟨200, "", some tx, some (preferredTrack (t0 :: rest) t0).languageCode,
          none, none, none⟩ ∧
      ((preferredTrack (t0 :: rest) t0 ∈ t0 :: rest ∧
          isNonAsrEn (preferredTrack (t0 :: rest) t0)) ∨
       ((∀ t ∈ t0 :: rest, ¬ isNonAsrEn t) ∧ preferredTrack (t0 :: rest) t0 ∈ t0 :: rest ∧
          isEn (preferredTrack (t0 :: rest) t0)) ∨
       ((∀ t ∈ t0 :: rest, ¬ isEn t) ∧ preferredTrack (t0 :: rest) t0 = t0))) ∧
    (∀ (env : SimpleV2Env) (vid lg : String) (info : VideoInfo) (t0 : CaptionTrack)
      (rest : List CaptionTrack) (tm : CaptionTrack),
      env.lang = some lg → lg ≠ "" → env.videoID = .ok vid → env.videoInfo = .ok info →
      chainTracks info = some (t0 :: rest) →
      (t0 :: rest).find? (fun t => t.languageCode = lg) = some tm →
      simpleTranscriptV2Handler env =
        Res.err 500 "An error occurred while fetching the simple transcript.") ∧
    (∀ (env : PrimaryEnv) (lang x : String) (t0 : CaptionTrack)
      (rest : List CaptionTrack) (ls : List XmlLine),
      ((∃ e, env.library = .error e) ∨ env.library = .ok []) →
      env.basicInfo = .ok (t0 :: rest) →
      (∀ t ∈ t0 :: rest, t.languageCode ≠ lang) →
      env.xml t0.baseUrl = .ok x →
      parseTranscriptXml x = .ok ls → ls ≠ [] →
      fetchTranscriptPrimary env lang = .ok (.strs ls)) := by
  refine ⟨?_, ?_, ?_, ?_, ?_⟩
  · intro env vid lg info t0 rest hl hlg hv hc hs hch hfind
    have ht : truthyOpt env.lang = true := by simp [truthyOpt, hl, hlg]
    have ht2 : truthyOpt (some lg) = true := by simp [truthyOpt, hlg]
    simp [simpleTranscriptV3Handler, simpleTranscriptV3Body, hl, hlg, hv, hc, hs, hch,
      hfind, ht, ht2, bind, Except.bind, pure, Except.pure]
  · intro env vid lg tx info t0 rest tm hl hlg hv hc hs hch hfind hfab
    have ht : truthyOpt env.lang = true := by simp [truthyOpt, hl, hlg]
    have ht2 : truthyOpt (some lg) = true := by simp [truthyOpt, hlg]
    simp [simpleTranscriptV3Handler, simpleTranscriptV3Body, hl, hlg, hv, hc, hs, hch,
      hfind, hfab, ht, ht2, bind, Except.bind, pure, Except.pure]
  · intro env vid tx info t0 rest hl hv hc hs hch hfab
    have ht : truthyOpt env.lang = false := by simp [truthyOpt, hl]
    refine ⟨?_, preferredTrack_spec (t0 :: rest) t0⟩
    simp [simpleTranscriptV3Handler, simpleTranscriptV3Body, hv, hc, hs, hch, hfab, ht,
      bind, Except.bind, pure, Except.pure]
  · intro env vid lg info t0 rest tm hl hlg hv hinfo hch hfind
    obtain ⟨pr, cs, r, hpr, hcs, hr, htl⟩ := chainTracks_some info _ hch
    have ht : truthyOpt env.lang = true := by simp [truthyOpt, hl, hlg]
    have ht2 : truthyOpt (some lg) = true := by simp [truthyOpt, hlg]
    simp [simpleTranscriptV2Handler, simpleTranscriptV2Body, hl, hlg, hv, hinfo, hpr, hcs,
      hr, htl, hfind, ht, ht2, jsAccess, bind, Except.bind, pure, Except.pure]
  · intro env lang x t0 rest ls hlib hbi hne hxml hparse hlsne
    have hfind : (t0 :: rest).find? (fun t => t.languageCode = lang) = none :=
      List.find?_eq_none.mpr (fun t ht => by simp [hne t ht])
    have hscrape : primaryScrape env lang = .ok (.strs ls) := by
      simp [primaryScrape, hbi, hfind, hxml, hparse, hlsne, bind, Except.bind, pure,
        Except.pure]
    rcases hlib with ⟨e, he⟩ | he <;>
      simp [fetchTranscriptPrimary, he, hscrape]

/-- Counterexample to claim C2 as stated: requesting Spanish from a video
whose only track is German makes the scrape fallback return the German
track's lines successfully (silent substitution), and
`/simple-transcript-v2` answers 500 even when the requested language *is*
available. -/
theorem C2_counterexample :
    fetchTranscriptPrimary envC2prim "es" = .ok (.strs [⟨"1.5", "2", "Hallo"⟩]) ∧
    envC2prim.basicInfo = .ok [⟨"de", "German", none, "https://yt.example/de"⟩] ∧
    ("de" : String) ≠ "es" ∧
    simpleTranscriptV2Handler envC2v2 =
      Res.err 500 "An error occurred while fetching the simple transcript." :=
  ⟨by decide, rfl, by decide, by decide⟩

/-- Witness for the amended C2: v3 serves exactly the requested language. -/
theorem C2_language_selection_amended_witness :
    simpleTranscriptV3Handler envC2v3 =
      ⟨200, "", some "tx-es", some "es", none, none, none⟩ :=
  C2_language_selection_amended.2.1 envC2v3 "vid01" "es" "tx-es"
    ⟨⟨"Demo", 300, "desc"⟩, some ⟨some ⟨some ⟨some
      [⟨"en", "English", some "asr", "https://yt.example/en"⟩,
       ⟨"es", "Spanish", none, "https://yt.example/es"⟩]⟩⟩⟩⟩
    ⟨"en", "English", some "asr", "https://yt.example/en"⟩
    [⟨"es", "Spanish", none, "https://yt.example/es"⟩]
    ⟨"es", "Spanish", none, "https://yt.example/es"⟩
    rfl (by decide) rfl rfl rfl (by decide) (by decide) (by decide)

end YT

namespace YT

/-- Claim C1 (amended): for a video whose metadata carries an *empty*
caption-track list, every POST transcript endpoint returns 404 with
"No captions available for this video.".  When the captions section is
missing from the metadata entirely, `/transcript`, `/smart-transcript`,
`/smart-transcript-v2` and `/simple-transcript-v3` still return that 404,
but `/simple-transcript` and `/simple-transcript-v2` read the track list
through an unguarded property chain, throw a `TypeError`, and return a
500; `GET /api/transcript` surfaces such failures as a 404 whose message
is the underlying error text instead. -/
theorem C1_no_captions_amended :
    (∀ (env : TranscriptEnv) (vid : String) (info : VideoInfo),
      env.videoID = .ok vid → vid ≠ "" → env.videoInfo = .ok info →
      chainTracks info = some [] →
      transcriptHandler env = Res.err 404 "No captions available for this video.") ∧
    (∀ (env : TranscriptEnv) (vid : String) (info : VideoInfo) (pr : PlayerResponse),
      env.videoID = .ok vid → vid ≠ "" → env.videoInfo = .ok info →
      info.player_response = some pr → pr.captions = none →
      transcriptHandler env = Res.err 404 "No captions available for this video.") ∧
    (∀ (env : SimpleEnv) (vid : String) (info : VideoInfo),
      env.videoID = .ok vid → env.videoInfo = .ok info →
      chainTracks info = some [] →
      simpleTranscriptHandler env = Res.err 404 "No captions available for this video.") ∧
    (∀ (env : SimpleEnv) (vid : String) (info : VideoInfo) (pr : PlayerResponse),
      env.videoID = .ok vid → env.videoInfo = .ok info →
      info.player_response = some pr → pr.captions = none →
      simpleTranscriptHandler env =
        Res.err 500 "An error occurred while fetching the simple transcript.") ∧
    (∀ (env : SimpleV2Env) (vid : String) (info : VideoInfo),
      env.videoID = .ok vid → env.videoInfo = .ok info →
      chainTracks info = some [] →
      simpleTranscriptV2Handler env = Res.err 404 "No captions available for this video.") ∧
    (∀ (env : SimpleV2Env) (vid : String) (info : VideoInfo) (pr : PlayerResponse),
      env.videoID = .ok vid → env.videoInfo = .ok info →
      info.player_response = some pr → pr.captions = none →
      simpleTranscriptV2Handler env =
        Res.err 500 "An error occurred while fetching the simple transcript.") ∧
    (∀ (env : SimpleV3Env) (vid : String) (info : VideoInfo),
      env.videoID = .ok vid → env.cachedDoc = none → env.safeInfo = .ok (some info) →
      chainTracks info = some [] →
      simpleTranscriptV3Handler env = Res.err 404 "No captions available for this video.") ∧
    (∀ (env : SimpleV3Env) (vid : String) (info : VideoInfo),
      env.videoID = .ok vid → env.cachedDoc = none → env.safeInfo = .ok (some info) →
      chainTracks info = none →
      simpleTranscriptV3Handler env = Res.err 404 "No captions available for this video.") ∧
    (∀ (env : SmartEnv) (vid : String) (info : VideoInfo),
      env.videoID = .ok vid → env.cachedDoc = none → env.videoInfo = .ok info →
      chainTracks info = some [] →
      smartTranscriptHandler env = Res.err 404 "No captions available for this video.") ∧
    (∀ (env : SmartEnv) (vid : String) (info : VideoInfo) (pr : PlayerResponse),
      env.videoID = .ok vid → env.cachedDoc = none → env.videoInfo = .ok info →
      info.player_response = some pr → pr.captions = none →
      smartTranscriptHandler env = Res.err 404 "No captions available for this video.") ∧
    (∀ (env : SmartV2Env) (vid : String) (info : VideoInfo),
      env.url ≠ "" → env.videoID = .ok vid → env.cachedDoc = none →
      env.videoInfo = .ok info → (chainTracks info).getD [] = [] →
      smartTranscriptV2Handler env = Res.err 404 "No captions available for this video.") ∧
    (∀ (env : ApiEnv) (vid : String),
      env.videoIdParam = some vid → vid ≠ "" →
      env.fetchLines vid (env.langParam.getD "en") =
        .error ⟨"No captionTracks available to scrape.", none⟩ →
      apiTranscriptHandler env = Res.err 404 "No captionTracks available to scrape.") := by
  refine ⟨?_, ?_, ?_, ?_, ?_, ?_, ?_, ?_, ?_, ?_, ?_, ?_⟩
  · intro env vid info hv hvne hinfo hch
    obtain ⟨pr, cs, r, hpr, hcs, hr, htl⟩ := chainTracks_some info _ hch
    simp [transcriptHandler, transcriptBody, hv, hvne, hinfo, hpr, hcs, hr, htl,
      bind, Except.bind, pure, Except.pure]
  · intro env vid info pr hv hvne hinfo hpr hcs
    simp [transcriptHandler, transcriptBody, hv, hvne, hinfo, hpr, hcs,
      bind, Except.bind, pure, Except.pure]
  · intro env vid info hv hinfo hch
    obtain ⟨pr, cs, r, hpr, hcs, hr, htl⟩ := chainTracks_some info _ hch
    simp [simpleTranscriptHandler, simpleTranscriptBody, hv, hinfo, hpr, hcs, hr, htl,
      jsAccess, bind, Except.bind, pure, Except.pure]
  · intro env vid info pr hv hinfo hpr hcs
    simp [simpleTranscriptHandler, simpleTranscriptBody, hv, hinfo, hpr, hcs,
      jsAccess, bind, Except.bind, pure, Except.pure]
  · intro env vid info hv hinfo hch
    obtain ⟨pr, cs, r, hpr, hcs, hr, htl⟩ := chainTracks_some info _ hch
    simp [simpleTranscriptV2Handler, simpleTranscriptV2Body, hv, hinfo, hpr, hcs, hr, htl,
      jsAccess, bind, Except.bind, pure, Except.pure]
  · intro env vid info pr hv hinfo hpr hcs
    simp [simpleTranscriptV2Handler, simpleTranscriptV2Body, hv, hinfo, hpr, hcs,
      jsAccess, bind, Except.bind, pure, Except.pure]
  · intro env vid info hv hc hs hch
    simp [simpleTranscriptV3Handler, simpleTranscriptV3Body, hv, hc, hs, hch,
      bind, Except.bind, pure, Except.pure]
  · intro env vid info hv hc hs hch
    simp [simpleTranscriptV3Handler, simpleTranscriptV3Body, hv, hc, hs, hch,
      bind, Except.bind, pure, Except.pure]
  · intro env vid info hv hc hinfo hch
    obtain ⟨pr, cs, r, hpr, hcs, hr, htl⟩ := chainTracks_some info _ hch
    simp [smartTranscriptHandler, smartTranscriptBody, hv, hc, hinfo, hpr, hcs, hr, htl,
      bind, Except.bind, pure, Except.pure]
  · intro env vid info pr hv hc hinfo hpr hcs
    simp [smartTranscriptHandler, smartTranscriptBody, hv, hc, hinfo, hpr, hcs,
      bind, Except.bind, pure, Except.pure]
  · intro env vid info hu hv hc hinfo hch
    simp [smartTranscriptV2Handler, smartTranscriptV2Body, hu, hv, hc, hinfo, hch,
      bind, Except.bind, pure, Except.pure]
  · intro env vid hvp hvne hfetch
    simp [apiTranscriptHandler, hvp, hvne, hfetch, containsCI, containsSub, toLowerAscii]

/-- Counterexample to claim C1 as stated: `/simple-transcript` on a video
whose metadata lacks the captions section answers 500, not the claimed
404 with "No captions available for this video.". -/
theorem C1_counterexample :
    simpleTranscriptHandler envC1simple =
      Res.err 500 "An error occurred while fetching the simple transcript." ∧
    (simpleTranscriptHandler envC1simple).status ≠ 404 :=
  ⟨by decide, by decide⟩

/-- Witness for the amended C1: empty track lists do produce the 404. -/
theorem C1_no_captions_amended_witness :
    simpleTranscriptHandler envC1simpleEmpty =
      Res.err 404 "No captions available for this video." ∧
    simpleTranscriptV3Handler envC1v3 =
      Res.err 404 "No captions available for this video." ∧
    transcriptHandler envC1transcript =
      Res.err 404 "No captions available for this video." :=
  ⟨C1_no_captions_amended.2.2.1 envC1simpleEmpty "vid01" infoEmptyTracks rfl rfl (by decide),
   C1_no_captions_amended.2.2.2.2.2.2.1 envC1v3 "vid01" infoEmptyTracks rfl rfl rfl (by decide),
   C1_no_captions_amended.1 envC1transcript "vid01" infoEmptyTracks rfl (by decide) rfl
     (by decide)⟩

end YT
